import Mathlib

/-!
Verification of the object attribute / struct-layout engine of the ocilib
Oracle driver (`object.c`).

The development shallowly embeds the engine's data model and operations:

* `TInfo` / `OCol` mirror `OCI_TypeInfo` / `OCI_Column` restricted to the
  fields the layout and indicator engines read and write (`parent_type`,
  `cols`, `struct_size`, `align`, `offsets`; column `name`, `datatype`,
  `subtype`, nested `typinf`).  A nested/parent type is embedded as a
  subtree; in C it is a shared pointer, but every cached quantity is a
  deterministic function of the type structure, so the per-node caches of
  the tree model compute the same values the shared caches do.
* `ObjectGetStructSize`, `ObjectGetAttrInfo` and the loop helper
  `structSizeLoop` are a line-by-line translation of the layout routine,
  returning the updated type descriptor together with the two out
  parameters `*p_size` and `*p_align`.  The C `offsets` array always has
  exactly `nb_cols` entries and the routine writes entries `0 .. nb_cols-1`
  in increasing order, so the model rebuilds the array as the written
  sequence (parent-copied entries followed by the loop's writes).
* `ObjectGetIndOffset` is the recursive null-indicator indexer.
* `OObject` models the runtime object value: its resolved type, the shared
  indicator array with the instance's base index, and one abstract native
  data cell and one lazily-cached wrapper slot per column (the byte address
  `handle + offsets[index]` of attribute `index` is abstracted to the cell
  with that column index; wrapper handles are integers with `0` = NULL).
  Native assignment / conversion primitives (`OCIRawAssignBytes`,
  `StringToStringPtr`, `TranslateNumericValue`, ...) are oracle function
  parameters returning a success flag, exactly as the `OCI_EXEC`-wrapped
  call sites consume them.
* `ObjectGetRealTypeInfo` models the polymorphic type resolver over an
  abstract native runtime and reports whether the native lookup path ran.

Values not present in the provided sources (the public-header constants
`OCI_CDT_*`, `OCI_NUM_*`, `OCI_IND_*`, `OCI_TIF_TYPE`, the native `sizeof`
quantities, and the `ROUNDUP` macro) are modelled explicitly; the claims
below depend only on the constants being distinct, never on their values.
-/

set_option maxHeartbeats 1600000

namespace OcilibObject

/-- Column datatype codes from the public header (`OCI_CDT_*`); the proofs
only use that the codes are pairwise distinct. -/
def OCI_CDT_NUMERIC : Nat := 1

def OCI_CDT_DATETIME : Nat := 3

def OCI_CDT_TEXT : Nat := 4

def OCI_CDT_OBJECT : Nat := 12

def OCI_CDT_BOOLEAN : Nat := 15

/-- Numeric subtype bit flags from the public header (`OCI_NUM_*`). -/
def OCI_NUM_SHORT : Nat := 4

def OCI_NUM_INT : Nat := 8

def OCI_NUM_FLOAT : Nat := 32

def OCI_NUM_DOUBLE : Nat := 64

/-- OCI null-indicator values (`OCIInd`): `-1` marks NULL, `0` marks NOT NULL;
any other value (e.g. `> 0`, Oracle's "truncated" indications) is neither. -/
def OCI_IND_NULL : Int := -1

def OCI_IND_NOTNULL : Int := 0

/-- Native scalar sizes and alignments used by `ObjectGetAttrInfo`
(LP64 values; the claims do not depend on the concrete numbers). -/
def sizeof_short : Nat := 2

def sizeof_int : Nat := 4

def sizeof_double : Nat := 8

def sizeof_OCINumber : Nat := 22

def sizeof_ub1 : Nat := 1

def sizeof_OCIDate : Nat := 7

def sizeof_sb2 : Nat := 2

def sizeof_boolean : Nat := 4

def sizeof_ptr : Nat := 8

mutual

/-- Shallow embedding of `OCI_TypeInfo`, restricted to the layout fields:
`parent_type`, `cols`, `struct_size`, `align`, `offsets` (in this order).
`struct_size = 0` means "layout not yet computed". -/
inductive TInfo : Type where
  | mk : Option TInfo → List OCol → Nat → Nat → List Nat → TInfo

/-- Shallow embedding of `OCI_Column` restricted to `name`, `datatype`,
`subtype` and the nested `typinf` of object columns. -/
inductive OCol : Type where
  | mk : String → Nat → Nat → Option TInfo → OCol

end

def TInfo.parent : TInfo → Option TInfo
  | .mk p _ _ _ _ => p

def TInfo.cols : TInfo → List OCol
  | .mk _ cs _ _ _ => cs

def TInfo.struct_size : TInfo → Nat
  | .mk _ _ ss _ _ => ss

def TInfo.align : TInfo → Nat
  | .mk _ _ _ al _ => al

def TInfo.offsets : TInfo → List Nat
  | .mk _ _ _ _ os => os

/-- The `nb_cols` field (always equal to the column count). -/
def TInfo.nbCols (t : TInfo) : Nat := t.cols.length

def OCol.cname : OCol → String
  | .mk nm _ _ _ => nm

def OCol.datatype : OCol → Nat
  | .mk _ dt _ _ => dt

def OCol.subtype : OCol → Nat
  | .mk _ _ st _ => st

def OCol.nested : OCol → Option TInfo
  | .mk _ _ _ nt => nt

/-- Size bound used by the termination measure of the layout engine. -/
def sizeOf_drop_le {α : Type} [SizeOf α] : ∀ (l : List α) (n : Nat), sizeOf (l.drop n) ≤ sizeOf l
  | _, 0 => Nat.le_refl _
  | [], _ + 1 => Nat.le_refl _
  | a :: l, n + 1 => by
      have h := sizeOf_drop_le l n
      simp only [List.drop_succ_cons]
      simp only [List.cons.sizeOf_spec]
      omega

/-- Size bound used by the termination measure of the layout engine. -/
def sizeOf_lt_of_drop_cons {α : Type} [SizeOf α] {l rest : List α} {i : Nat} {c : α}
    (h : l.drop i = c :: rest) : sizeOf c < sizeOf l ∧ sizeOf rest < sizeOf l := by
  have h1 := sizeOf_drop_le l i
  rw [h] at h1
  simp only [List.cons.sizeOf_spec] at h1
  omega

/-- Modelled from the spec: the `ROUNDUP` macro (`macro.h`, not among the
provided sources) rounds a byte cursor up to the next multiple of an
alignment (spec 4.1: "rounded up to the alignment of the next column",
"rounded up to the type's overall maximum alignment"); an alignment of `0`
(no column processed yet) leaves the cursor unchanged. -/
def ROUNDUP (x a : Nat) : Nat := if a = 0 then x else a * ((x + a - 1) / a)

/-- The scalar rows of the `switch` in `ObjectGetAttrInfo`: per-datatype
(and numeric-subtype) native size and alignment. -/
def scalarInfo (dt st : Nat) : Nat × Nat :=
  if dt = OCI_CDT_NUMERIC then
    if st &&& OCI_NUM_SHORT ≠ 0 then (sizeof_short, sizeof_short)
    else if st &&& OCI_NUM_INT ≠ 0 then (sizeof_int, sizeof_int)
    else if st &&& OCI_NUM_FLOAT ≠ 0 then (sizeof_double, sizeof_double)
    else if st &&& OCI_NUM_DOUBLE ≠ 0 then (sizeof_double, sizeof_double)
    else (sizeof_OCINumber, sizeof_ub1)
  else if dt = OCI_CDT_DATETIME then (sizeof_OCIDate, sizeof_sb2)
  else if dt = OCI_CDT_BOOLEAN then (sizeof_boolean, sizeof_boolean)
  else (sizeof_ptr, sizeof_ptr)

mutual

/-- `ObjectGetAttrInfo` restricted to one in-range column: given the column
and the current values of the caller's `*p_size` / `*p_align` variables,
return the column (with its nested subtree's caches updated) and the new
values of the two variables.  An object column with a NULL nested `typinf`
leaves both variables unchanged (`ObjectGetStructSize` returns early);
every other case overwrites both.  The caller performs the
`typinf->align` running-maximum update with the returned alignment, and
handles the `index >= nb_cols` early-out itself. -/
def ObjectGetAttrInfo : OCol → Nat → Nat → OCol × Nat × Nat
  | .mk nm dt st nested, sIn, aIn =>
    if dt = OCI_CDT_OBJECT then
      match nested with
      | some nt =>
          let r := ObjectGetStructSize nt
          (.mk nm dt st (some r.1), r.2.1, r.2.2)
      | none => (.mk nm dt st none, sIn, aIn)
    else
      let p := scalarInfo dt st
      (.mk nm dt st nested, p.1, p.2)
termination_by c _ _ => sizeOf c
decreasing_by
  simp only [OCol.mk.sizeOf_spec, Option.some.sizeOf_spec]; omega

/-- The `for (; i < typinf->nb_cols; i++)` loop of `ObjectGetStructSize`,
entered just after the current iteration has stored `size1` and written
`typinf->offsets[i]`.  Arguments: remaining columns (indices `i+1 ..`),
then the loop variables `size`, `size1`, `size2`, `align`, `typinf->align`,
then the offsets written so far and the columns processed so far.  One call
performs the tail of iteration `i` (the look-ahead
`ObjectGetAttrInfo(typinf, i+1, &size2, &align)`, which on the final
iteration fails and sets `size2 = 0` leaving `align` unchanged, then
`size += size1; size = ROUNDUP(size, align)`) and all later iterations.
Returns the final `size`, `size2`, `align`, `typinf->align`, offsets and
updated columns. -/
def structSizeLoop : List OCol → Nat → Nat → Nat → Nat → Nat → List Nat → List OCol →
    Nat × Nat × Nat × Nat × List Nat × List OCol
  | [], size, size1, _, alignV, talign, offs, upd =>
      (ROUNDUP (size + size1) alignV, 0, alignV, talign, offs, upd)
  | c :: rest, size, size1, size2c, alignV, talign, offs, upd =>
      let r := ObjectGetAttrInfo c size2c alignV
      let talign' := max talign r.2.2
      let size' := ROUNDUP (size + size1) r.2.2
      structSizeLoop rest size' r.2.1 r.2.1 r.2.2 talign' (offs ++ [size']) (upd ++ [r.1])
termination_by l _ _ _ _ _ _ _ => sizeOf l
decreasing_by
  · simp only [List.cons.sizeOf_spec]; omega
  · simp only [List.cons.sizeOf_spec]; omega

/-- `ObjectGetStructSize`: memoized struct-layout computation.  Returns the
updated type descriptor together with the `*p_size` / `*p_align` outputs
(which the C code always reloads from `typinf->struct_size` /
`typinf->align` after the conditional computation).  In the one corner
case of a parent with zero columns, the C loop's `i == 0` branch runs
`ObjectGetAttrInfo` on column 0 a second time (into `size1` / `align`)
after the pre-loop call; for any column whose nested descriptor is
present the call is deterministic and ignores the incoming variable
values, so the second call returns exactly the pre-loop outputs and the
translation reuses them as the `structSizeLoop` entry values. -/
def ObjectGetStructSize : TInfo → TInfo × Nat × Nat
  | .mk par cs ss al os =>
    if ss ≠ 0 then (.mk par cs ss al os, ss, al)
    else
      match par with
      | none =>
          match cs with
          | [] =>
              let t' : TInfo := .mk none [] (ROUNDUP 0 al) al os
              (t', t'.struct_size, t'.align)
          | c0 :: rest =>
              let r0 := ObjectGetAttrInfo c0 0 0
              let tal1 := max al r0.2.2
              let lr := structSizeLoop rest 0 r0.2.1 0 r0.2.2 tal1 [0] [r0.1]
              let t' : TInfo := .mk none lr.2.2.2.2.2 (ROUNDUP (lr.1 + lr.2.1) lr.2.2.2.1)
                lr.2.2.2.1 lr.2.2.2.2.1
              (t', t'.struct_size, t'.align)
      | some p =>
          let pr := ObjectGetStructSize p
          let pfx := (List.range pr.1.nbCols).map (fun j => pr.1.offsets.getD j 0)
          let i := pr.1.nbCols
          match hsp : cs.drop i with
          | [] =>
            let t' : TInfo := .mk (some pr.1) cs (ROUNDUP pr.2.1 al) al pfx
            (t', t'.struct_size, t'.align)
          | ci :: rest2 =>
            let r1 := ObjectGetAttrInfo ci 0 0
            let tal1 := max pr.2.2 r1.2.2
            let size0 := ROUNDUP pr.2.1 r1.2.2
            if i = 0 then
              let lr := structSizeLoop rest2 size0 r1.2.1 r1.2.1 r1.2.2 tal1 [0] [r1.1]
              let t' : TInfo := .mk (some pr.1) lr.2.2.2.2.2 (ROUNDUP (lr.1 + lr.2.1) lr.2.2.2.1)
                lr.2.2.2.1 lr.2.2.2.2.1
              (t', t'.struct_size, t'.align)
            else
              let lr := structSizeLoop rest2 size0 r1.2.1 r1.2.1 pr.2.2 tal1 (pfx ++ [size0])
                (cs.take i ++ [r1.1])
              let t' : TInfo := .mk (some pr.1) lr.2.2.2.2.2 (ROUNDUP (lr.1 + lr.2.1) lr.2.2.2.1)
                lr.2.2.2.1 lr.2.2.2.2.1
              (t', t'.struct_size, t'.align)
termination_by t => sizeOf t
decreasing_by
  all_goals simp only [TInfo.mk.sizeOf_spec, OCol.mk.sizeOf_spec, Option.some.sizeOf_spec,
    List.cons.sizeOf_spec, List.nil.sizeOf_spec]
  all_goals try omega
  all_goals (have h1 := sizeOf_lt_of_drop_cons hsp; omega)

end

mutual

/-- The `for (i = 0; i < index; i++)` loop of `ObjectGetIndOffset`, with the
columns to walk and the accumulator `j` (starting at `1`). -/
def indLoop : List OCol → Nat → Nat
  | [], j => j
  | c :: r, j => indLoop r (j + indContrib c)

/-- One iteration's increment in `ObjectGetIndOffset`: an object column adds
`ObjectGetIndOffset(cols[i].typinf, cols[i].typinf->nb_cols)`, any other
column adds `1`.  (The C code dereferences `cols[i].typinf` here; a NULL
nested descriptor — which the guard inside the recursive call would map to
`0` — contributes `0`.) -/
def indContrib : OCol → Nat
  | .mk _ dt _ nested =>
      if dt = OCI_CDT_OBJECT then
        match nested with
        | some nt => indOffsetFull nt
        | none => 0
      else 1

/-- `ObjectGetIndOffset(typinf, typinf->nb_cols)`: the full walk over a
nested type's columns. -/
def indOffsetFull : TInfo → Nat
  | .mk _ cs _ _ _ => indLoop cs 1

end

/-- `ObjectGetIndOffset`: the linear null-indicator offset of column
`index`, walking columns `0 .. index-1` with accumulator starting at `1`.
(The loop bound is the caller-supplied `index`; all call sites pass
`index <= nb_cols`, which `List.take` mirrors.) -/
def ObjectGetIndOffset (t : TInfo) (index : Nat) : Nat :=
  indLoop (t.cols.take index) 1

/-- Sum of the per-column indicator contributions of a column list (used to
state the claims; `indLoop l j = j + indSum l`). -/
def indSum (l : List OCol) : Nat := (l.map indContrib).sum

/-- The flattened recursive null-slot count of a type's attributes (the
spec's "flattened count": every column's own slot plus, recursively, the
slots of nested object columns' attributes; the composite's own root slot
is not included). -/
def flattenedCount (t : TInfo) : Nat := indSum t.cols

/-- Shallow embedding of `OCI_Object`, restricted to what the attribute
accessors touch: the resolved type, the shared indicator array with this
instance's base index `idx_ind`, one abstract native data cell per column
(standing for the bytes at `handle + offsets[index]`), and one cached
wrapper handle per column (`objs`, `0` = NULL). -/
structure OObject where
  typinf : TInfo
  tab_ind : List Int
  idx_ind : Nat
  dataCells : List Int
  objs : List Int

/-- The case-insensitive name match of `ostrcasecmp(col->name, attr) == 0`. -/
def ostrcasecmpEq (a b : String) : Bool :=
  a.data.map Char.toLower == b.data.map Char.toLower

/-- `ObjectGetAttrIndex`: first column whose datatype matches the filter
(`-1` accepts any datatype) and whose name matches case-insensitively;
`none` models the `-1` "not found" result. -/
def ObjectGetAttrIndex (t : TInfo) (attr : String) (dtype : Int) : Option Nat :=
  t.cols.findIdx? fun c =>
    ((dtype == -1) || ((c.datatype : Int) == dtype)) && ostrcasecmpEq c.cname attr

/-- `ObjectGetAttr`: computes the layout if not yet cached, then returns the
updated object, the attribute's data-cell index and the indicator-array
index `idx_ind + ObjectGetIndOffset(typinf, index)`. -/
def ObjectGetAttr (o : OObject) (index : Nat) : OObject × Nat × Nat :=
  let t' := if o.typinf.struct_size = 0 then (ObjectGetStructSize o.typinf).1 else o.typinf
  let o' := { o with typinf := t' }
  (o', index, o'.idx_ind + ObjectGetIndOffset t' index)

/-- `ObjectSetNull`: look the attribute up with datatype filter `-1`; if
found, store `OCI_IND_NULL` in its indicator slot and succeed, otherwise
raise the attribute-not-found error and fail.  Result components: updated
object, return value, whether `ExceptionAttributeNotFound` was raised. -/
def ObjectSetNull (o : OObject) (attr : String) : OObject × Bool × Bool :=
  match ObjectGetAttrIndex o.typinf attr (-1) with
  | some index =>
      let ind_index := o.idx_ind + ObjectGetIndOffset o.typinf index
      ({ o with tab_ind := o.tab_ind.set ind_index OCI_IND_NULL }, true, false)
  | none => (o, false, true)

/-- The `OCI_OBJECT_SET_VALUE` macro body, generic over the value type and
over the native assignment primitive `func` (which receives the value and
the current cell contents and returns the `OCI_EXEC` status together with
the cell contents it leaves behind — a failing primitive may or may not
have written).  `value = none` models a NULL `value` pointer. -/
def OCI_OBJECT_SET_VALUE {V : Type} (datatype : Int) (func : V → Int → Bool × Int)
    (o : OObject) (attr : String) (value : Option V) : OObject × Bool × Bool :=
  match value with
  | none => ObjectSetNull o attr
  | some v =>
      match ObjectGetAttrIndex o.typinf attr datatype with
      | some index =>
          let g := ObjectGetAttr o index
          let o1 := g.1
          let r := func v (o1.dataCells.getD g.2.1 0)
          let o2 := { o1 with dataCells := o1.dataCells.set g.2.1 r.2 }
          if r.1 then
            ({ o2 with tab_ind := o2.tab_ind.set g.2.2 OCI_IND_NOTNULL }, true, false)
          else (o2, false, false)
      | none => (o, false, true)

/-- `ObjectSetString`: same shape as the macro with the `StringToStringPtr`
primitive (passed as the oracle `strWrite`). -/
def ObjectSetString (strWrite : String → Int → Bool × Int) (o : OObject) (attr : String)
    (value : Option String) : OObject × Bool × Bool :=
  match value with
  | none => ObjectSetNull o attr
  | some v =>
      match ObjectGetAttrIndex o.typinf attr ((OCI_CDT_TEXT : Nat) : Int) with
      | some index =>
          let g := ObjectGetAttr o index
          let o1 := g.1
          let r := strWrite v (o1.dataCells.getD g.2.1 0)
          let o2 := { o1 with dataCells := o1.dataCells.set g.2.1 r.2 }
          if r.1 then
            ({ o2 with tab_ind := o2.tab_ind.set g.2.2 OCI_IND_NOTNULL }, true, false)
          else (o2, false, false)
      | none => (o, false, true)

/-- Default column used to read `obj->typinf->cols[index]` in the model. -/
def defaultOCol : OCol := .mk "" 0 0 none

/-- `ObjectSetNumberInternal`: numeric setter; `translate` models
`TranslateNumericValue(con, value, flag, num, col->subtype)` as an oracle
from the current cell contents and the column subtype to the status and
the cell contents left behind. -/
def ObjectSetNumberInternal (translate : Int → Nat → Bool × Int) (o : OObject)
    (attr : String) : OObject × Bool × Bool :=
  match ObjectGetAttrIndex o.typinf attr ((OCI_CDT_NUMERIC : Nat) : Int) with
  | some index =>
      let g := ObjectGetAttr o index
      let o1 := g.1
      let col := o1.typinf.cols.getD index defaultOCol
      let r := translate (o1.dataCells.getD g.2.1 0) col.subtype
      let o2 := { o1 with dataCells := o1.dataCells.set g.2.1 r.2 }
      if r.1 then
        ({ o2 with tab_ind := o2.tab_ind.set g.2.2 OCI_IND_NOTNULL }, true, false)
      else (o2, false, false)
  | none => (o, false, true)

/-- The `OCI_OBJECT_GET_VALUE` macro body: `func` models the complex-wrapper
construction (`XxxInit(con, obj->objs[index], value)`) from the cached
wrapper handle and the cell contents; result components: updated object,
`OCI_RETVAL` (wrapper handle, `0` = NULL), `OCI_STATUS`, error raised. -/
def OCI_OBJECT_GET_VALUE (datatype : Int) (func : Int → Int → Int) (o : OObject)
    (attr : String) : OObject × Int × Bool × Bool :=
  match ObjectGetAttrIndex o.typinf attr datatype with
  | some index =>
      let g := ObjectGetAttr o index
      let o1 := g.1
      let indVal := o1.tab_ind.getD g.2.2 0
      if OCI_IND_NULL ≠ indVal then
        let w := func (o1.objs.getD index 0) (o1.dataCells.getD g.2.1 0)
        ({ o1 with objs := o1.objs.set index w }, w, w != 0, false)
      else (o1, 0, true, false)
  | none => (o, 0, false, true)

/-- `ObjectGetBoolean`: scalar getter with explicit body; the return value
defaults to `FALSE` (`0`) and is overwritten with the stored cell contents
only when the indicator is not `OCI_IND_NULL`. -/
def ObjectGetBoolean (o : OObject) (attr : String) : OObject × Int × Bool × Bool :=
  match ObjectGetAttrIndex o.typinf attr ((OCI_CDT_BOOLEAN : Nat) : Int) with
  | some index =>
      let g := ObjectGetAttr o index
      let o1 := g.1
      let indVal := o1.tab_ind.getD g.2.2 0
      if OCI_IND_NULL ≠ indVal then (o1, o1.dataCells.getD g.2.1 0, true, false)
      else (o1, 0, true, false)
  | none => (o, 0, false, true)

/-- `ObjectGetNumberInternal`: numeric getter.  `translateOut` models
`TranslateNumericValue` reading the cell (given cell contents and column
subtype, `some v` = success writing `v` through the out pointer);
`textPath` models the `NumberFromString(... ObjectGetString ...)` fallback
outcome for text columns.  Result: updated object, the value written
through the out pointer (`none` = untouched), `OCI_STATUS`, error raised. -/
def ObjectGetNumberInternal (translateOut : Int → Nat → Option Int) (textPath : Option Int)
    (o : OObject) (attr : String) : OObject × Option Int × Bool × Bool :=
  match ObjectGetAttrIndex o.typinf attr ((OCI_CDT_NUMERIC : Nat) : Int) with
  | some index =>
      let g := ObjectGetAttr o index
      let o1 := g.1
      let indVal := o1.tab_ind.getD g.2.2 0
      if OCI_IND_NULL ≠ indVal then
        match translateOut (o1.dataCells.getD g.2.1 0) (o1.typinf.cols.getD index defaultOCol).subtype with
        | some outv => (o1, some outv, true, false)
        | none => (o1, none, false, false)
      else (o1, none, false, false)
  | none =>
      match ObjectGetAttrIndex o.typinf attr ((OCI_CDT_TEXT : Nat) : Int) with
      | some _ => (o, textPath, textPath.isSome, false)
      | none => (o, none, false, true)

/-- `ObjectGetShort`: sets the out value to `0` up front, runs
`ObjectGetNumberInternal` and returns whatever the out value holds. -/
def ObjectGetShort (translateOut : Int → Nat → Option Int) (textPath : Option Int)
    (o : OObject) (attr : String) : OObject × Int :=
  let r := ObjectGetNumberInternal translateOut textPath o attr
  (r.1, (r.2.1).getD 0)

/-- `ObjectIsNull`: reports NULL whenever the indicator differs from
`OCI_IND_NOTNULL` (result: return value, `OCI_STATUS`, error raised; the
object state is not modified — the function never computes the layout). -/
def ObjectIsNull (o : OObject) (attr : String) : Bool × Bool × Bool :=
  match ObjectGetAttrIndex o.typinf attr (-1) with
  | some index =>
      ((o.tab_ind.getD (o.idx_ind + ObjectGetIndOffset o.typinf index) 0) != OCI_IND_NOTNULL,
        true, false)
  | none => (false, false, true)

/-- `OCI_TIF_TYPE` from the public header (type-info category "type"). -/
def OCI_TIF_TYPE : Nat := 3

/-- The declared-type fields `ObjectGetRealTypeInfo` reads: category
(`type`), `is_final`, and the native type descriptor handle `tdo`
(`0` = NULL handle). -/
structure TypeInfoRef where
  ttype : Nat
  is_final : Bool
  tdo : Nat
  deriving DecidableEq

/-- Oracle for the native runtime calls of the polymorphism resolver:
`typeOfInstance` is `OCIObjectGetTypeRef` + `OCITypeByRef` (the instance's
actual `tdo`, `0` = NULL), `knownType` is `ListExists(con->tinfs, tdo)`,
and `describeLookup` is the `OCIDescribeAny` + `TypeInfoGet` path —
`none` models a failed metadata lookup (result left unchanged), `some r`
a completed one assigning `result = r` (where `r = none` is a NULL
`TypeInfoGet` result). -/
structure OciRuntime where
  typeOfInstance : Nat → Nat
  knownType : Nat → Bool
  describeLookup : Nat → Option (Option TypeInfoRef)

/-- `ObjectGetRealTypeInfo`: resolve the runtime type of an instance.  The
second result component records whether any native runtime call was made
(the `MemObjectNew` / `OCIObjectGetTypeRef` / `OCITypeByRef` block, which
runs exactly when an instance handle is given and the declared type is a
non-final object type). -/
def ObjectGetRealTypeInfo (rt : OciRuntime) (typinf : Option TypeInfoRef)
    (object : Option Nat) : Option TypeInfoRef × Bool :=
  match typinf with
  | none => (none, false)
  | some ti =>
      match object with
      | none => (some ti, false)
      | some h =>
          if ti.ttype = OCI_TIF_TYPE ∧ ti.is_final = false then
            let tdo2 := rt.typeOfInstance h
            if tdo2 ≠ 0 ∧ tdo2 ≠ ti.tdo then
              if rt.knownType tdo2 then (some ti, true)
              else
                match rt.describeLookup tdo2 with
                | some r => (r, true)
                | none => (some ti, true)
            else (some ti, true)
          else (some ti, false)

/-- Modelled from the spec: `ColumnGetAttrInfo` (`column.c`, not among the
provided sources) computes a column's native size and alignment by the
same per-datatype rule as `ObjectGetAttrInfo` (spec 4.1 step 4), reading
the column descriptor it is handed — here the descriptor at `index`, which
`ObjectGetUserStructSize` passes as `&typinf->cols[index]`. -/
def ColumnGetAttrInfo (cols : List OCol) (index : Nat) : Nat × Nat :=
  let r := ObjectGetAttrInfo (cols.getD index defaultOCol) 0 0
  (r.2.1, r.2.2)

/-- `ObjectGetUserStructSize`: the parallel user-struct sizing loop.  For
every `i < nb_cols` it obtains the size/alignment pair of the columns at
`i` and `i + 1`, raises the running maximum alignment with both, and
advances `size += size1; size = ROUNDUP(size, align2)`.  The third result
component instruments the column indices passed to `ColumnGetAttrInfo`,
in order. -/
def ObjectGetUserStructSize (t : TInfo) : Nat × Nat × List Nat :=
  (List.range t.nbCols).foldl
    (fun st i =>
      let r1 := ColumnGetAttrInfo t.cols i
      let r2 := ColumnGetAttrInfo t.cols (i + 1)
      let align := max (max st.2.1 r1.2) r2.2
      let size := ROUNDUP (st.1 + r1.1) r2.2
      (size, align, st.2.2 ++ [i, i + 1]))
    (0, 0, [])

/-- A plain (arbitrary-precision numeric) column named `nm`. -/
def numCol (nm : String) : OCol := .mk nm OCI_CDT_NUMERIC 0 none

/-- `INNER`: a root type with two plain numeric columns (fresh caches). -/
def innerTy : TInfo := .mk none [numCol "X", numCol "Y"] 0 0 []

/-- `OUTER(A object(INNER), B number)` from spec 8.9 (fresh caches). -/
def outerTy : TInfo :=
  .mk none [.mk "A" OCI_CDT_OBJECT 0 (some innerTy), numCol "B"] 0 0 []

/-- A one-column root type used as a concrete input in witnesses. -/
def oneColTy : TInfo := .mk none [numCol "V"] 0 0 []

/-- A parent type with its layout already computed: one numeric column at
offset `0`, `struct_size = 22`, `align = 1`. -/
def parentDone : TInfo := .mk none [numCol "P0"] 22 1 [0]

/-- A derived type of `parentDone` adding one numeric column (fresh caches;
the column list contains the inherited column first). -/
def derivedTy : TInfo := .mk (some parentDone) [numCol "P0", numCol "D1"] 0 0 []

/-- A concrete object value over a one-column boolean type whose layout is
cached; used as a witness state. -/
def boolColTy : TInfo := .mk none [.mk "FLAG" OCI_CDT_BOOLEAN 0 none] 4 4 [0]

/-- A concrete object over `boolColTy`: indicator array `[0, -1]` (the
attribute's slot `idx_ind + 1 = 1` holds NULL), one data cell, one cached
wrapper slot. -/
def boolObjNull : OObject := ⟨boolColTy, [0, -1], 0, [1], [0]⟩

/-- A concrete object over `boolColTy` whose attribute indicator holds `5`:
neither `OCI_IND_NULL` nor `OCI_IND_NOTNULL`. -/
def boolObjOdd : OObject := ⟨boolColTy, [0, 5], 0, [1], [0]⟩

/-- A concrete object over a one-column numeric type with cached layout. -/
def numObj : OObject := ⟨.mk none [numCol "V"] 22 1 [0], [0, 0], 0, [3], [0]⟩

/-- A concrete object over a one-column numeric type with cached layout
whose attribute indicator is NULL. -/
def numObjNull : OObject := ⟨.mk none [numCol "V"] 22 1 [0], [0, -1], 0, [3], [0]⟩

/-- A trivial native runtime for witnesses. -/
def rtTrivial : OciRuntime := ⟨fun _ => 0, fun _ => false, fun _ => none⟩

/-- A final declared object type. -/
def tiFinal : TypeInfoRef := ⟨OCI_TIF_TYPE, true, 7⟩

/-- A non-final declared object type. -/
def tiVirtual : TypeInfoRef := ⟨OCI_TIF_TYPE, false, 7⟩

/-! Basic lemmas -/

@[simp]
theorem TInfo.parent_mk (par cs ss al os) : (TInfo.mk par cs ss al os).parent = par := rfl

@[simp]
theorem TInfo.cols_mk (par cs ss al os) : (TInfo.mk par cs ss al os).cols = cs := rfl

@[simp]
theorem TInfo.struct_size_mk (par cs ss al os) : (TInfo.mk par cs ss al os).struct_size = ss := rfl

@[simp]
theorem TInfo.align_mk (par cs ss al os) : (TInfo.mk par cs ss al os).align = al := rfl

@[simp]
theorem TInfo.offsets_mk (par cs ss al os) : (TInfo.mk par cs ss al os).offsets = os := rfl

@[simp]
theorem TInfo.nbCols_mk (par cs ss al os) : (TInfo.mk par cs ss al os).nbCols = cs.length := rfl

@[simp]
theorem OCol.cname_mk (nm dt st nt) : (OCol.mk nm dt st nt).cname = nm := rfl

@[simp]
theorem OCol.datatype_mk (nm dt st nt) : (OCol.mk nm dt st nt).datatype = dt := rfl

@[simp]
theorem OCol.subtype_mk (nm dt st nt) : (OCol.mk nm dt st nt).subtype = st := rfl

@[simp]
theorem OCol.nested_mk (nm dt st nt) : (OCol.mk nm dt st nt).nested = nt := rfl

theorem le_ROUNDUP (x a : Nat) : x ≤ ROUNDUP x a := by
  unfold ROUNDUP
  split
  · exact Nat.le_refl x
  · rename_i ha
    have hpos : 0 < a := Nat.pos_of_ne_zero ha
    have hmod : (x + a - 1) % a < a := Nat.mod_lt _ hpos
    have hdm := Nat.div_add_mod (x + a - 1) a
    omega

theorem ROUNDUP_zero (a : Nat) : ROUNDUP 0 a = 0 := by
  unfold ROUNDUP
  split
  · rfl
  · rename_i ha
    have hpos : 0 < a := Nat.pos_of_ne_zero ha
    have h1 : (0 + a - 1) / a = 0 := Nat.div_eq_of_lt (by omega)
    rw [h1, Nat.mul_zero]

/-! Layout loop lemmas -/

theorem structSizeLoop_nil (size size1 s2c alignV talign : Nat) (offs : List Nat)
    (upd : List OCol) :
    structSizeLoop [] size size1 s2c alignV talign offs upd =
      (ROUNDUP (size + size1) alignV, 0, alignV, talign, offs, upd) := by
  simp [structSizeLoop]

theorem structSizeLoop_cons (c : OCol) (rest : List OCol) (size size1 s2c alignV talign : Nat)
    (offs : List Nat) (upd : List OCol) :
    structSizeLoop (c :: rest) size size1 s2c alignV talign offs upd =
      structSizeLoop rest (ROUNDUP (size + size1) (ObjectGetAttrInfo c s2c alignV).2.2)
        (ObjectGetAttrInfo c s2c alignV).2.1 (ObjectGetAttrInfo c s2c alignV).2.1
        (ObjectGetAttrInfo c s2c alignV).2.2 (max talign (ObjectGetAttrInfo c s2c alignV).2.2)
        (offs ++ [ROUNDUP (size + size1) (ObjectGetAttrInfo c s2c alignV).2.2])
        (upd ++ [(ObjectGetAttrInfo c s2c alignV).1]) := by
  simp [structSizeLoop]

theorem structSizeLoop_frame :
    ∀ (rest : List OCol) (size size1 s2c alignV talign : Nat) (offs : List Nat)
      (upd : List OCol),
    structSizeLoop rest size size1 s2c alignV talign offs upd =
      ((structSizeLoop rest size size1 s2c alignV 0 [] []).1,
       (structSizeLoop rest size size1 s2c alignV 0 [] []).2.1,
       (structSizeLoop rest size size1 s2c alignV 0 [] []).2.2.1,
       max talign (structSizeLoop rest size size1 s2c alignV 0 [] []).2.2.2.1,
       offs ++ (structSizeLoop rest size size1 s2c alignV 0 [] []).2.2.2.2.1,
       upd ++ (structSizeLoop rest size size1 s2c alignV 0 [] []).2.2.2.2.2) := by
  intro rest
  induction rest with
  | nil =>
      intro size size1 s2c alignV talign offs upd
      simp [structSizeLoop_nil]
  | cons c rest ih =>
      intro size size1 s2c alignV talign offs upd
      rw [structSizeLoop_cons c rest size size1 s2c alignV talign offs upd,
        structSizeLoop_cons c rest size size1 s2c alignV 0 [] []]
      generalize ObjectGetAttrInfo c s2c alignV = A
      obtain ⟨c1, s2, a2⟩ := A
      dsimp only
      rw [ih (ROUNDUP (size + size1) a2) s2 s2 a2 (max talign a2)
        (offs ++ [ROUNDUP (size + size1) a2]) (upd ++ [c1])]
      rw [ih (ROUNDUP (size + size1) a2) s2 s2 a2 (max 0 a2)
        ([] ++ [ROUNDUP (size + size1) a2]) ([] ++ [c1])]
      simp only [Prod.mk.injEq, List.nil_append, List.append_assoc, List.singleton_append,
        true_and, and_true]
      omega

theorem structSizeLoop_size_le :
    ∀ (rest : List OCol) (size size1 s2c alignV talign : Nat) (offs : List Nat)
      (upd : List OCol),
    size ≤ (structSizeLoop rest size size1 s2c alignV talign offs upd).1 := by
  intro rest
  induction rest with
  | nil =>
      intro size size1 s2c alignV talign offs upd
      rw [structSizeLoop_nil]
      exact Nat.le_trans (Nat.le_add_right _ _) (le_ROUNDUP _ _)
  | cons c rest ih =>
      intro size size1 s2c alignV talign offs upd
      rw [structSizeLoop_cons]
      refine Nat.le_trans ?_ (ih _ _ _ _ _ _ _)
      exact Nat.le_trans (Nat.le_add_right _ _) (le_ROUNDUP _ _)

theorem structSizeLoop_talign_le :
    ∀ (rest : List OCol) (size size1 s2c alignV talign : Nat) (offs : List Nat)
      (upd : List OCol),
    talign ≤ (structSizeLoop rest size size1 s2c alignV talign offs upd).2.2.2.1 := by
  intro rest
  induction rest with
  | nil =>
      intro size size1 s2c alignV talign offs upd
      rw [structSizeLoop_nil]
  | cons c rest ih =>
      intro size size1 s2c alignV talign offs upd
      rw [structSizeLoop_cons]
      exact Nat.le_trans (Nat.le_max_left _ _) (ih _ _ _ _ _ _ _)

theorem structSizeLoop_idem :
    ∀ (rest : List OCol) (size size1 s2c alignV : Nat),
    (∀ c ∈ rest, ∀ s a, ObjectGetAttrInfo (ObjectGetAttrInfo c s a).1 s a =
      ObjectGetAttrInfo c s a) →
    structSizeLoop ((structSizeLoop rest size size1 s2c alignV 0 [] []).2.2.2.2.2)
        size size1 s2c alignV 0 [] [] =
      structSizeLoop rest size size1 s2c alignV 0 [] [] := by
  intro rest
  induction rest with
  | nil =>
      intro size size1 s2c alignV _
      rw [structSizeLoop_nil size size1 s2c alignV 0 [] []]
      dsimp only
      rw [structSizeLoop_nil]
  | cons c rest ih =>
      intro size size1 s2c alignV hAI
      have hc := hAI c (List.mem_cons_self c rest) s2c alignV
      have hrest : ∀ c2 ∈ rest, ∀ s a, ObjectGetAttrInfo (ObjectGetAttrInfo c2 s a).1 s a =
          ObjectGetAttrInfo c2 s a :=
        fun c2 h2 s a => hAI c2 (List.mem_cons_of_mem c h2) s a
      rw [structSizeLoop_cons c rest size size1 s2c alignV 0 [] []]
      generalize hA : ObjectGetAttrInfo c s2c alignV = A at hc
      obtain ⟨c1, s2, a2⟩ := A
      dsimp only
      dsimp only at hc
      have ihr := ih (ROUNDUP (size + size1) a2) s2 s2 a2 hrest
      rw [structSizeLoop_frame rest (ROUNDUP (size + size1) a2) s2 s2 a2 (max 0 a2)
        ([] ++ [ROUNDUP (size + size1) a2]) ([] ++ [c1])]
      dsimp only
      rw [List.nil_append, List.singleton_append]
      rw [structSizeLoop_cons c1 _ size size1 s2c alignV 0 [] []]
      rw [hc]
      dsimp only
      rw [structSizeLoop_frame
        ((structSizeLoop rest (ROUNDUP (size + size1) a2) s2 s2 a2 0 [] []).2.2.2.2.2)
        (ROUNDUP (size + size1) a2) s2 s2 a2 (max 0 a2)
        ([] ++ [ROUNDUP (size + size1) a2]) ([] ++ [c1])]
      rw [ihr]
      simp only [List.nil_append, List.singleton_append]

/-! Branch equations of `ObjectGetStructSize` -/

theorem gss_cached (par : Option TInfo) (cs : List OCol) (ss al : Nat) (os : List Nat)
    (h : ss ≠ 0) :
    ObjectGetStructSize (.mk par cs ss al os) = (.mk par cs ss al os, ss, al) := by
  rw [ObjectGetStructSize.eq_def]
  simp [h]

theorem gss_root_nil (al : Nat) (os : List Nat) :
    ObjectGetStructSize (.mk none [] 0 al os) = (.mk none [] 0 al os, 0, al) := by
  rw [ObjectGetStructSize.eq_def]
  simp [ROUNDUP_zero, TInfo.struct_size, TInfo.align]

theorem gss_root_cons (c0 : OCol) (rest : List OCol) (al : Nat) (os : List Nat) :
    ObjectGetStructSize (.mk none (c0 :: rest) 0 al os) =
      (.mk none
        (structSizeLoop rest 0 (ObjectGetAttrInfo c0 0 0).2.1 0 (ObjectGetAttrInfo c0 0 0).2.2
          (max al (ObjectGetAttrInfo c0 0 0).2.2) [0] [(ObjectGetAttrInfo c0 0 0).1]).2.2.2.2.2
        (ROUNDUP
          ((structSizeLoop rest 0 (ObjectGetAttrInfo c0 0 0).2.1 0 (ObjectGetAttrInfo c0 0 0).2.2
            (max al (ObjectGetAttrInfo c0 0 0).2.2) [0] [(ObjectGetAttrInfo c0 0 0).1]).1 +
           (structSizeLoop rest 0 (ObjectGetAttrInfo c0 0 0).2.1 0 (ObjectGetAttrInfo c0 0 0).2.2
            (max al (ObjectGetAttrInfo c0 0 0).2.2) [0] [(ObjectGetAttrInfo c0 0 0).1]).2.1)
          (structSizeLoop rest 0 (ObjectGetAttrInfo c0 0 0).2.1 0 (ObjectGetAttrInfo c0 0 0).2.2
            (max al (ObjectGetAttrInfo c0 0 0).2.2) [0] [(ObjectGetAttrInfo c0 0 0).1]).2.2.2.1)
        (structSizeLoop rest 0 (ObjectGetAttrInfo c0 0 0).2.1 0 (ObjectGetAttrInfo c0 0 0).2.2
          (max al (ObjectGetAttrInfo c0 0 0).2.2) [0] [(ObjectGetAttrInfo c0 0 0).1]).2.2.2.1
        (structSizeLoop rest 0 (ObjectGetAttrInfo c0 0 0).2.1 0 (ObjectGetAttrInfo c0 0 0).2.2
          (max al (ObjectGetAttrInfo c0 0 0).2.2) [0] [(ObjectGetAttrInfo c0 0 0).1]).2.2.2.2.1,
       ROUNDUP
          ((structSizeLoop rest 0 (ObjectGetAttrInfo c0 0 0).2.1 0 (ObjectGetAttrInfo c0 0 0).2.2
            (max al (ObjectGetAttrInfo c0 0 0).2.2) [0] [(ObjectGetAttrInfo c0 0 0).1]).1 +
           (structSizeLoop rest 0 (ObjectGetAttrInfo c0 0 0).2.1 0 (ObjectGetAttrInfo c0 0 0).2.2
            (max al (ObjectGetAttrInfo c0 0 0).2.2) [0] [(ObjectGetAttrInfo c0 0 0).1]).2.1)
          (structSizeLoop rest 0 (ObjectGetAttrInfo c0 0 0).2.1 0 (ObjectGetAttrInfo c0 0 0).2.2
            (max al (ObjectGetAttrInfo c0 0 0).2.2) [0] [(ObjectGetAttrInfo c0 0 0).1]).2.2.2.1,
       (structSizeLoop rest 0 (ObjectGetAttrInfo c0 0 0).2.1 0 (ObjectGetAttrInfo c0 0 0).2.2
          (max al (ObjectGetAttrInfo c0 0 0).2.2) [0] [(ObjectGetAttrInfo c0 0 0).1]).2.2.2.1) := by
  rw [ObjectGetStructSize.eq_def]
  simp [TInfo.struct_size, TInfo.align]

theorem gss_sub_nil (p : TInfo) (cs : List OCol) (al : Nat) (os : List Nat)
    (hsp : cs.drop ((ObjectGetStructSize p).1.nbCols) = []) :
    ObjectGetStructSize (.mk (some p) cs 0 al os) =
      (.mk (some (ObjectGetStructSize p).1) cs (ROUNDUP (ObjectGetStructSize p).2.1 al) al
        ((List.range (ObjectGetStructSize p).1.nbCols).map
          (fun j => (ObjectGetStructSize p).1.offsets.getD j 0)),
       ROUNDUP (ObjectGetStructSize p).2.1 al, al) := by
  rw [ObjectGetStructSize.eq_def]
  dsimp only
  split
  · rename_i h0
    exact absurd rfl h0
  · split
    · rfl
    · rename_i ci rest2 heq
      rw [hsp] at heq
      cases heq

theorem gss_sub_cons (p : TInfo) (cs : List OCol) (al : Nat) (os : List Nat) (ci : OCol)
    (rest2 : List OCol) (hsp : cs.drop ((ObjectGetStructSize p).1.nbCols) = ci :: rest2) :
    ObjectGetStructSize (.mk (some p) cs 0 al os) =
      (if (ObjectGetStructSize p).1.nbCols = 0 then
        (.mk (some (ObjectGetStructSize p).1)
          (structSizeLoop rest2 (ROUNDUP (ObjectGetStructSize p).2.1 (ObjectGetAttrInfo ci 0 0).2.2)
            (ObjectGetAttrInfo ci 0 0).2.1 (ObjectGetAttrInfo ci 0 0).2.1
            (ObjectGetAttrInfo ci 0 0).2.2
            (max (ObjectGetStructSize p).2.2 (ObjectGetAttrInfo ci 0 0).2.2)
            [0] [(ObjectGetAttrInfo ci 0 0).1]).2.2.2.2.2
          (ROUNDUP
            ((structSizeLoop rest2 (ROUNDUP (ObjectGetStructSize p).2.1 (ObjectGetAttrInfo ci 0 0).2.2)
              (ObjectGetAttrInfo ci 0 0).2.1 (ObjectGetAttrInfo ci 0 0).2.1
              (ObjectGetAttrInfo ci 0 0).2.2
              (max (ObjectGetStructSize p).2.2 (ObjectGetAttrInfo ci 0 0).2.2)
              [0] [(ObjectGetAttrInfo ci 0 0).1]).1 +
             (structSizeLoop rest2 (ROUNDUP (ObjectGetStructSize p).2.1 (ObjectGetAttrInfo ci 0 0).2.2)
              (ObjectGetAttrInfo ci 0 0).2.1 (ObjectGetAttrInfo ci 0 0).2.1
              (ObjectGetAttrInfo ci 0 0).2.2
              (max (ObjectGetStructSize p).2.2 (ObjectGetAttrInfo ci 0 0).2.2)
              [0] [(ObjectGetAttrInfo ci 0 0).1]).2.1)
            (structSizeLoop rest2 (ROUNDUP (ObjectGetStructSize p).2.1 (ObjectGetAttrInfo ci 0 0).2.2)
              (ObjectGetAttrInfo ci 0 0).2.1 (ObjectGetAttrInfo ci 0 0).2.1
              (ObjectGetAttrInfo ci 0 0).2.2
              (max (ObjectGetStructSize p).2.2 (ObjectGetAttrInfo ci 0 0).2.2)
              [0] [(ObjectGetAttrInfo ci 0 0).1]).2.2.2.1)
          (structSizeLoop rest2 (ROUNDUP (ObjectGetStructSize p).2.1 (ObjectGetAttrInfo ci 0 0).2.2)
            (ObjectGetAttrInfo ci 0 0).2.1 (ObjectGetAttrInfo ci 0 0).2.1
            (ObjectGetAttrInfo ci 0 0).2.2
            (max (ObjectGetStructSize p).2.2 (ObjectGetAttrInfo ci 0 0).2.2)
            [0] [(ObjectGetAttrInfo ci 0 0).1]).2.2.2.1
          (structSizeLoop rest2 (ROUNDUP (ObjectGetStructSize p).2.1 (ObjectGetAttrInfo ci 0 0).2.2)
            (ObjectGetAttrInfo ci 0 0).2.1 (ObjectGetAttrInfo ci 0 0).2.1
            (ObjectGetAttrInfo ci 0 0).2.2
            (max (ObjectGetStructSize p).2.2 (ObjectGetAttrInfo ci 0 0).2.2)
            [0] [(ObjectGetAttrInfo ci 0 0).1]).2.2.2.2.1,
         ROUNDUP
            ((structSizeLoop rest2 (ROUNDUP (ObjectGetStructSize p).2.1 (ObjectGetAttrInfo ci 0 0).2.2)
              (ObjectGetAttrInfo ci 0 0).2.1 (ObjectGetAttrInfo ci 0 0).2.1
              (ObjectGetAttrInfo ci 0 0).2.2
              (max (ObjectGetStructSize p).2.2 (ObjectGetAttrInfo ci 0 0).2.2)
              [0] [(ObjectGetAttrInfo ci 0 0).1]).1 +
             (structSizeLoop rest2 (ROUNDUP (ObjectGetStructSize p).2.1 (ObjectGetAttrInfo ci 0 0).2.2)
              (ObjectGetAttrInfo ci 0 0).2.1 (ObjectGetAttrInfo ci 0 0).2.1
              (ObjectGetAttrInfo ci 0 0).2.2
              (max (ObjectGetStructSize p).2.2 (ObjectGetAttrInfo ci 0 0).2.2)
              [0] [(ObjectGetAttrInfo ci 0 0).1]).2.1)
            (structSizeLoop rest2 (ROUNDUP (ObjectGetStructSize p).2.1 (ObjectGetAttrInfo ci 0 0).2.2)
              (ObjectGetAttrInfo ci 0 0).2.1 (ObjectGetAttrInfo ci 0 0).2.1
              (ObjectGetAttrInfo ci 0 0).2.2
              (max (ObjectGetStructSize p).2.2 (ObjectGetAttrInfo ci 0 0).2.2)
              [0] [(ObjectGetAttrInfo ci 0 0).1]).2.2.2.1,
         (structSizeLoop rest2 (ROUNDUP (ObjectGetStructSize p).2.1 (ObjectGetAttrInfo ci 0 0).2.2)
            (ObjectGetAttrInfo ci 0 0).2.1 (ObjectGetAttrInfo ci 0 0).2.1
            (ObjectGetAttrInfo ci 0 0).2.2
            (max (ObjectGetStructSize p).2.2 (ObjectGetAttrInfo ci 0 0).2.2)
            [0] [(ObjectGetAttrInfo ci 0 0).1]).2.2.2.1)
      else
        (.mk (some (ObjectGetStructSize p).1)
          (structSizeLoop rest2 (ROUNDUP (ObjectGetStructSize p).2.1 (ObjectGetAttrInfo ci 0 0).2.2)
            (ObjectGetAttrInfo ci 0 0).2.1 (ObjectGetAttrInfo ci 0 0).2.1
            (ObjectGetStructSize p).2.2
            (max (ObjectGetStructSize p).2.2 (ObjectGetAttrInfo ci 0 0).2.2)
            (((List.range (ObjectGetStructSize p).1.nbCols).map
                (fun j => (ObjectGetStructSize p).1.offsets.getD j 0)) ++
              [ROUNDUP (ObjectGetStructSize p).2.1 (ObjectGetAttrInfo ci 0 0).2.2])
            (cs.take (ObjectGetStructSize p).1.nbCols ++ [(ObjectGetAttrInfo ci 0 0).1])).2.2.2.2.2
          (ROUNDUP
            ((structSizeLoop rest2 (ROUNDUP (ObjectGetStructSize p).2.1 (ObjectGetAttrInfo ci 0 0).2.2)
              (ObjectGetAttrInfo ci 0 0).2.1 (ObjectGetAttrInfo ci 0 0).2.1
              (ObjectGetStructSize p).2.2
              (max (ObjectGetStructSize p).2.2 (ObjectGetAttrInfo ci 0 0).2.2)
              (((List.range (ObjectGetStructSize p).1.nbCols).map
                  (fun j => (ObjectGetStructSize p).1.offsets.getD j 0)) ++
                [ROUNDUP (ObjectGetStructSize p).2.1 (ObjectGetAttrInfo ci 0 0).2.2])
              (cs.take (ObjectGetStructSize p).1.nbCols ++ [(ObjectGetAttrInfo ci 0 0).1])).1 +
             (structSizeLoop rest2 (ROUNDUP (ObjectGetStructSize p).2.1 (ObjectGetAttrInfo ci 0 0).2.2)
              (ObjectGetAttrInfo ci 0 0).2.1 (ObjectGetAttrInfo ci 0 0).2.1
              (ObjectGetStructSize p).2.2
              (max (ObjectGetStructSize p).2.2 (ObjectGetAttrInfo ci 0 0).2.2)
              (((List.range (ObjectGetStructSize p).1.nbCols).map
                  (fun j => (ObjectGetStructSize p).1.offsets.getD j 0)) ++
                [ROUNDUP (ObjectGetStructSize p).2.1 (ObjectGetAttrInfo ci 0 0).2.2])
              (cs.take (ObjectGetStructSize p).1.nbCols ++ [(ObjectGetAttrInfo ci 0 0).1])).2.1)
            (structSizeLoop rest2 (ROUNDUP (ObjectGetStructSize p).2.1 (ObjectGetAttrInfo ci 0 0).2.2)
              (ObjectGetAttrInfo ci 0 0).2.1 (ObjectGetAttrInfo ci 0 0).2.1
              (ObjectGetStructSize p).2.2
              (max (ObjectGetStructSize p).2.2 (ObjectGetAttrInfo ci 0 0).2.2)
              (((List.range (ObjectGetStructSize p).1.nbCols).map
                  (fun j => (ObjectGetStructSize p).1.offsets.getD j 0)) ++
                [ROUNDUP (ObjectGetStructSize p).2.1 (ObjectGetAttrInfo ci 0 0).2.2])
              (cs.take (ObjectGetStructSize p).1.nbCols ++ [(ObjectGetAttrInfo ci 0 0).1])).2.2.2.1)
          (structSizeLoop rest2 (ROUNDUP (ObjectGetStructSize p).2.1 (ObjectGetAttrInfo ci 0 0).2.2)
            (ObjectGetAttrInfo ci 0 0).2.1 (ObjectGetAttrInfo ci 0 0).2.1
            (ObjectGetStructSize p).2.2
            (max (ObjectGetStructSize p).2.2 (ObjectGetAttrInfo ci 0 0).2.2)
            (((List.range (ObjectGetStructSize p).1.nbCols).map
                (fun j => (ObjectGetStructSize p).1.offsets.getD j 0)) ++
              [ROUNDUP (ObjectGetStructSize p).2.1 (ObjectGetAttrInfo ci 0 0).2.2])
            (cs.take (ObjectGetStructSize p).1.nbCols ++ [(ObjectGetAttrInfo ci 0 0).1])).2.2.2.1
          (structSizeLoop rest2 (ROUNDUP (ObjectGetStructSize p).2.1 (ObjectGetAttrInfo ci 0 0).2.2)
            (ObjectGetAttrInfo ci 0 0).2.1 (ObjectGetAttrInfo ci 0 0).2.1
            (ObjectGetStructSize p).2.2
            (max (ObjectGetStructSize p).2.2 (ObjectGetAttrInfo ci 0 0).2.2)
            (((List.range (ObjectGetStructSize p).1.nbCols).map
                (fun j => (ObjectGetStructSize p).1.offsets.getD j 0)) ++
              [ROUNDUP (ObjectGetStructSize p).2.1 (ObjectGetAttrInfo ci 0 0).2.2])
            (cs.take (ObjectGetStructSize p).1.nbCols ++ [(ObjectGetAttrInfo ci 0 0).1])).2.2.2.2.1,
         ROUNDUP
            ((structSizeLoop rest2 (ROUNDUP (ObjectGetStructSize p).2.1 (ObjectGetAttrInfo ci 0 0).2.2)
              (ObjectGetAttrInfo ci 0 0).2.1 (ObjectGetAttrInfo ci 0 0).2.1
              (ObjectGetStructSize p).2.2
              (max (ObjectGetStructSize p).2.2 (ObjectGetAttrInfo ci 0 0).2.2)
              (((List.range (ObjectGetStructSize p).1.nbCols).map
                  (fun j => (ObjectGetStructSize p).1.offsets.getD j 0)) ++
                [ROUNDUP (ObjectGetStructSize p).2.1 (ObjectGetAttrInfo ci 0 0).2.2])
              (cs.take (ObjectGetStructSize p).1.nbCols ++ [(ObjectGetAttrInfo ci 0 0).1])).1 +
             (structSizeLoop rest2 (ROUNDUP (ObjectGetStructSize p).2.1 (ObjectGetAttrInfo ci 0 0).2.2)
              (ObjectGetAttrInfo ci 0 0).2.1 (ObjectGetAttrInfo ci 0 0).2.1
              (ObjectGetStructSize p).2.2
              (max (ObjectGetStructSize p).2.2 (ObjectGetAttrInfo ci 0 0).2.2)
              (((List.range (ObjectGetStructSize p).1.nbCols).map
                  (fun j => (ObjectGetStructSize p).1.offsets.getD j 0)) ++
                [ROUNDUP (ObjectGetStructSize p).2.1 (ObjectGetAttrInfo ci 0 0).2.2])
              (cs.take (ObjectGetStructSize p).1.nbCols ++ [(ObjectGetAttrInfo ci 0 0).1])).2.1)
            (structSizeLoop rest2 (ROUNDUP (ObjectGetStructSize p).2.1 (ObjectGetAttrInfo ci 0 0).2.2)
              (ObjectGetAttrInfo ci 0 0).2.1 (ObjectGetAttrInfo ci 0 0).2.1
              (ObjectGetStructSize p).2.2
              (max (ObjectGetStructSize p).2.2 (ObjectGetAttrInfo ci 0 0).2.2)
              (((List.range (ObjectGetStructSize p).1.nbCols).map
                  (fun j => (ObjectGetStructSize p).1.offsets.getD j 0)) ++
                [ROUNDUP (ObjectGetStructSize p).2.1 (ObjectGetAttrInfo ci 0 0).2.2])
              (cs.take (ObjectGetStructSize p).1.nbCols ++ [(ObjectGetAttrInfo ci 0 0).1])).2.2.2.1,
         (structSizeLoop rest2 (ROUNDUP (ObjectGetStructSize p).2.1 (ObjectGetAttrInfo ci 0 0).2.2)
            (ObjectGetAttrInfo ci 0 0).2.1 (ObjectGetAttrInfo ci 0 0).2.1
            (ObjectGetStructSize p).2.2
            (max (ObjectGetStructSize p).2.2 (ObjectGetAttrInfo ci 0 0).2.2)
            (((List.range (ObjectGetStructSize p).1.nbCols).map
                (fun j => (ObjectGetStructSize p).1.offsets.getD j 0)) ++
              [ROUNDUP (ObjectGetStructSize p).2.1 (ObjectGetAttrInfo ci 0 0).2.2])
            (cs.take (ObjectGetStructSize p).1.nbCols ++ [(ObjectGetAttrInfo ci 0 0).1])).2.2.2.1)) := by
  rw [ObjectGetStructSize.eq_def]
  dsimp only
  split
  · rename_i h0
    exact absurd rfl h0
  · split
    · rename_i heq
      rw [hsp] at heq
      cases heq
    · rename_i ci2 rest3 heq
      rw [hsp] at heq
      injection heq with h1 h2
      subst h1
      subst h2
      rfl

/-! Idempotence of the layout computation -/

theorem attrInfo_idem (c : OCol)
    (hnt : ∀ nt, c.nested = some nt →
      ObjectGetStructSize ((ObjectGetStructSize nt).1) = ObjectGetStructSize nt)
    (s a : Nat) :
    ObjectGetAttrInfo (ObjectGetAttrInfo c s a).1 s a = ObjectGetAttrInfo c s a := by
  obtain ⟨nm, dt, st, nested⟩ := c
  by_cases hdt : dt = OCI_CDT_OBJECT
  · cases nested with
    | none =>
        rw [ObjectGetAttrInfo.eq_def]
        simp only [hdt, if_true]
        rw [ObjectGetAttrInfo.eq_def]
        simp only [hdt, if_true]
    | some nt =>
        have h := hnt nt rfl
        rw [ObjectGetAttrInfo.eq_def]
        simp only [hdt, if_true]
        rw [ObjectGetAttrInfo.eq_def]
        simp only [hdt, if_true]
        rw [h]
  · rw [ObjectGetAttrInfo.eq_def]
    simp only [hdt, if_false]
    rw [ObjectGetAttrInfo.eq_def]
    simp only [hdt, if_false]

theorem gss_proj (t : TInfo) :
    (ObjectGetStructSize t).2.1 = (ObjectGetStructSize t).1.struct_size ∧
    (ObjectGetStructSize t).2.2 = (ObjectGetStructSize t).1.align := by
  obtain ⟨par, cs, ss, al, os⟩ := t
  by_cases hss : ss = 0
  · subst hss
    match par with
    | none =>
        match cs with
        | [] => rw [gss_root_nil]; exact ⟨rfl, rfl⟩
        | c0 :: rest => rw [gss_root_cons]; exact ⟨rfl, rfl⟩
    | some p =>
        match hsp : cs.drop ((ObjectGetStructSize p).1.nbCols) with
        | [] => rw [gss_sub_nil p cs al os hsp]; exact ⟨rfl, rfl⟩
        | ci :: rest2 =>
            rw [gss_sub_cons p cs al os ci rest2 hsp]
            split
            · exact ⟨rfl, rfl⟩
            · exact ⟨rfl, rfl⟩
  · rw [gss_cached par cs ss al os hss]
    exact ⟨rfl, rfl⟩

theorem gss_idem_root_cons (c0 : OCol) (rest : List OCol) (al : Nat) (os : List Nat)
    (hAIc : ∀ s a, ObjectGetAttrInfo (ObjectGetAttrInfo c0 s a).1 s a = ObjectGetAttrInfo c0 s a)
    (hAIr : ∀ c ∈ rest, ∀ s a,
      ObjectGetAttrInfo (ObjectGetAttrInfo c s a).1 s a = ObjectGetAttrInfo c s a) :
    ObjectGetStructSize ((ObjectGetStructSize (.mk none (c0 :: rest) 0 al os)).1) =
      ObjectGetStructSize (.mk none (c0 :: rest) 0 al os) := by
  rw [gss_root_cons c0 rest al os]
  generalize hA : ObjectGetAttrInfo c0 0 0 = A
  obtain ⟨c1, s0, a0⟩ := A
  have hc := hAIc 0 0
  rw [hA] at hc
  dsimp only at hc ⊢
  have hidem := structSizeLoop_idem rest 0 s0 0 a0 hAIr
  rw [structSizeLoop_frame rest 0 s0 0 a0 (max al a0) [0] [c1]]
  dsimp only
  set B := structSizeLoop rest 0 s0 0 a0 0 [] [] with hB
  by_cases hSS : ROUNDUP (B.1 + B.2.1) (max (max al a0) B.2.2.2.1) = 0
  · rw [hSS]
    simp only [List.singleton_append]
    rw [gss_root_cons c1 (B.2.2.2.2.2) (max (max al a0) B.2.2.2.1) (0 :: B.2.2.2.2.1)]
    rw [hc]
    dsimp only
    have hTa : max (max (max al a0) B.2.2.2.1) a0 = max (max al a0) B.2.2.2.1 := by omega
    rw [hTa]
    rw [structSizeLoop_frame B.2.2.2.2.2 0 s0 0 a0 (max (max al a0) B.2.2.2.1) [0] [c1]]
    rw [hidem]
    have hTb : max (max (max al a0) B.2.2.2.1) B.2.2.2.1 = max (max al a0) B.2.2.2.1 := by omega
    rw [hTb]
    rw [hSS]
    simp [List.singleton_append]
  · rw [gss_cached _ _ _ _ _ hSS]

theorem gss_idem_sub (p : TInfo) (cs : List OCol) (al : Nat) (os : List Nat)
    (hp : ObjectGetStructSize ((ObjectGetStructSize p).1) = ObjectGetStructSize p)
    (hAI : ∀ c ∈ cs, ∀ s a,
      ObjectGetAttrInfo (ObjectGetAttrInfo c s a).1 s a = ObjectGetAttrInfo c s a) :
    ObjectGetStructSize ((ObjectGetStructSize (.mk (some p) cs 0 al os)).1) =
      ObjectGetStructSize (.mk (some p) cs 0 al os) := by
  cases hsp : cs.drop ((ObjectGetStructSize p).1.nbCols) with
  | nil =>
      rw [gss_sub_nil p cs al os hsp]
      dsimp only
      by_cases hSS : ROUNDUP (ObjectGetStructSize p).2.1 al = 0
      · rw [hSS]
        have hsp2 : cs.drop ((ObjectGetStructSize ((ObjectGetStructSize p).1)).1.nbCols) = [] := by
          rw [hp]; exact hsp
        rw [gss_sub_nil ((ObjectGetStructSize p).1) cs al _ hsp2]
        rw [hp, hSS]
      · rw [gss_cached _ _ _ _ _ hSS]
  | cons ci rest2 =>
      have hci : ci ∈ cs := List.drop_subset _ cs (hsp ▸ List.mem_cons_self ci rest2)
      have hr2 : ∀ c ∈ rest2, c ∈ cs := fun c h =>
        List.drop_subset _ cs (hsp ▸ List.mem_cons_of_mem ci h)
      have hil : (ObjectGetStructSize p).1.nbCols < cs.length := by
        by_contra hle
        rw [List.drop_eq_nil_of_le (by omega)] at hsp
        cases hsp
      rw [gss_sub_cons p cs al os ci rest2 hsp]
      by_cases hi : (ObjectGetStructSize p).1.nbCols = 0
      · rw [if_pos hi]
        generalize hA : ObjectGetAttrInfo ci 0 0 = A
        obtain ⟨c1, s2, a2⟩ := A
        have hc := hAI ci hci 0 0
        rw [hA] at hc
        dsimp only at hc ⊢
        have hidem := structSizeLoop_idem rest2
          (ROUNDUP (ObjectGetStructSize p).2.1 a2) s2 s2 a2
          (fun c h s a => hAI c (hr2 c h) s a)
        rw [structSizeLoop_frame rest2 (ROUNDUP (ObjectGetStructSize p).2.1 a2) s2 s2 a2
          (max (ObjectGetStructSize p).2.2 a2) [0] [c1]]
        dsimp only
        set B := structSizeLoop rest2 (ROUNDUP (ObjectGetStructSize p).2.1 a2) s2 s2 a2 0 [] []
          with hB
        by_cases hSS : ROUNDUP (B.1 + B.2.1) (max (max (ObjectGetStructSize p).2.2 a2)
            B.2.2.2.1) = 0
        · rw [hSS]
          simp only [List.singleton_append]
          have hsp2 : (c1 :: B.2.2.2.2.2).drop
              ((ObjectGetStructSize ((ObjectGetStructSize p).1)).1.nbCols) = c1 :: B.2.2.2.2.2 := by
            rw [hp, hi, List.drop_zero]
          rw [gss_sub_cons ((ObjectGetStructSize p).1) (c1 :: B.2.2.2.2.2)
            (max (max (ObjectGetStructSize p).2.2 a2) B.2.2.2.1) (0 :: B.2.2.2.2.1)
            c1 B.2.2.2.2.2 hsp2]
          rw [hp, if_pos hi, hc]
          dsimp only
          rw [structSizeLoop_frame B.2.2.2.2.2 (ROUNDUP (ObjectGetStructSize p).2.1 a2) s2 s2 a2
            (max (ObjectGetStructSize p).2.2 a2) [0] [c1]]
          rw [hidem]
          rw [hSS]
          simp [List.singleton_append]
        · rw [gss_cached _ _ _ _ _ hSS]
      · rw [if_neg hi]
        generalize hA : ObjectGetAttrInfo ci 0 0 = A
        obtain ⟨c1, s2, a2⟩ := A
        have hc := hAI ci hci 0 0
        rw [hA] at hc
        dsimp only at hc ⊢
        have hidem := structSizeLoop_idem rest2
          (ROUNDUP (ObjectGetStructSize p).2.1 a2) s2 s2 (ObjectGetStructSize p).2.2
          (fun c h s a => hAI c (hr2 c h) s a)
        rw [structSizeLoop_frame rest2 (ROUNDUP (ObjectGetStructSize p).2.1 a2) s2 s2
          (ObjectGetStructSize p).2.2 (max (ObjectGetStructSize p).2.2 a2)
          (((List.range (ObjectGetStructSize p).1.nbCols).map
              (fun j => (ObjectGetStructSize p).1.offsets.getD j 0)) ++
            [ROUNDUP (ObjectGetStructSize p).2.1 a2])
          (cs.take (ObjectGetStructSize p).1.nbCols ++ [c1])]
        dsimp only
        set B := structSizeLoop rest2 (ROUNDUP (ObjectGetStructSize p).2.1 a2) s2 s2
          (ObjectGetStructSize p).2.2 0 [] [] with hB
        by_cases hSS : ROUNDUP (B.1 + B.2.1) (max (max (ObjectGetStructSize p).2.2 a2)
            B.2.2.2.1) = 0
        · rw [hSS]
          have hlen : (cs.take ((ObjectGetStructSize p).1.nbCols)).length =
              (ObjectGetStructSize p).1.nbCols := by
            rw [List.length_take]
            omega
          have hsp2 : (cs.take ((ObjectGetStructSize p).1.nbCols) ++ [c1] ++ B.2.2.2.2.2).drop
              ((ObjectGetStructSize ((ObjectGetStructSize p).1)).1.nbCols) = c1 :: B.2.2.2.2.2 := by
            have hd := List.drop_left (cs.take ((ObjectGetStructSize p).1.nbCols))
              ([c1] ++ B.2.2.2.2.2)
            rw [hlen] at hd
            rw [hp, List.append_assoc, hd, List.singleton_append]
          rw [gss_sub_cons ((ObjectGetStructSize p).1)
            (cs.take ((ObjectGetStructSize p).1.nbCols) ++ [c1] ++ B.2.2.2.2.2)
            (max (max (ObjectGetStructSize p).2.2 a2) B.2.2.2.1)
            (((List.range (ObjectGetStructSize p).1.nbCols).map
                (fun j => (ObjectGetStructSize p).1.offsets.getD j 0)) ++
              [ROUNDUP (ObjectGetStructSize p).2.1 a2] ++ B.2.2.2.2.1)
            c1 B.2.2.2.2.2 hsp2]
          rw [hp, if_neg hi, hc]
          dsimp only
          have htake : (cs.take ((ObjectGetStructSize p).1.nbCols) ++ [c1] ++
              B.2.2.2.2.2).take ((ObjectGetStructSize p).1.nbCols) =
              cs.take ((ObjectGetStructSize p).1.nbCols) := by
            have ht := List.take_left (cs.take ((ObjectGetStructSize p).1.nbCols))
              ([c1] ++ B.2.2.2.2.2)
            rw [hlen] at ht
            rw [List.append_assoc, ht]
          rw [htake]
          rw [structSizeLoop_frame B.2.2.2.2.2 (ROUNDUP (ObjectGetStructSize p).2.1 a2) s2 s2
            (ObjectGetStructSize p).2.2 (max (ObjectGetStructSize p).2.2 a2)
            (((List.range (ObjectGetStructSize p).1.nbCols).map
                (fun j => (ObjectGetStructSize p).1.offsets.getD j 0)) ++
              [ROUNDUP (ObjectGetStructSize p).2.1 a2])
            (cs.take (ObjectGetStructSize p).1.nbCols ++ [c1])]
          rw [hidem]
          rw [hSS]
        · rw [gss_cached _ _ _ _ _ hSS]

theorem sizeOf_nested_lt (c : OCol) (nt : TInfo) (h : c.nested = some nt) :
    sizeOf nt < sizeOf c := by
  obtain ⟨nm, dt, st, nested⟩ := c
  simp only [OCol.nested] at h
  subst h
  simp only [OCol.mk.sizeOf_spec, Option.some.sizeOf_spec]
  omega

theorem sizeOf_col_lt (par : Option TInfo) (cs : List OCol) (ss al : Nat) (os : List Nat)
    (c : OCol) (h : c ∈ cs) : sizeOf c < sizeOf (TInfo.mk par cs ss al os) := by
  have h1 := List.sizeOf_lt_of_mem h
  simp only [TInfo.mk.sizeOf_spec]
  omega

theorem sizeOf_parent_lt (p : TInfo) (cs : List OCol) (ss al : Nat) (os : List Nat) :
    sizeOf p < sizeOf (TInfo.mk (some p) cs ss al os) := by
  simp only [TInfo.mk.sizeOf_spec, Option.some.sizeOf_spec]
  omega

/-- A second run of `ObjectGetStructSize` on the type descriptor left behind
by a first run returns the same descriptor and the same outputs. -/
theorem gss_idem (t : TInfo) :
    ObjectGetStructSize ((ObjectGetStructSize t).1) = ObjectGetStructSize t := by
  obtain ⟨par, cs, ss, al, os⟩ := t
  have hAI : ∀ c ∈ cs, ∀ s a,
      ObjectGetAttrInfo (ObjectGetAttrInfo c s a).1 s a = ObjectGetAttrInfo c s a := by
    intro c hcm s a
    apply attrInfo_idem
    intro nt hnt
    exact gss_idem nt
  by_cases hss : ss = 0
  · subst hss
    cases par with
    | none =>
        cases cs with
        | nil =>
            rw [gss_root_nil]
            dsimp only
            rw [gss_root_nil]
        | cons c0 rest =>
            exact gss_idem_root_cons c0 rest al os
              (hAI c0 (List.mem_cons_self c0 rest))
              (fun c h s a => hAI c (List.mem_cons_of_mem c0 h) s a)
    | some p =>
        exact gss_idem_sub p cs al os (gss_idem p) hAI
  · rw [gss_cached par cs ss al os hss]
    dsimp only
    rw [gss_cached par cs ss al os hss]
termination_by sizeOf t
decreasing_by
  · have h1 := List.sizeOf_lt_of_mem hcm
    have h2 := sizeOf_nested_lt c nt hnt
    simp only [TInfo.mk.sizeOf_spec]
    omega
  · simp only [TInfo.mk.sizeOf_spec, Option.some.sizeOf_spec]
    omega

/-! Null-indicator offset lemmas -/

theorem indLoop_eq (l : List OCol) (j : Nat) : indLoop l j = j + indSum l := by
  induction l generalizing j with
  | nil => simp [indLoop, indSum]
  | cons c r ih =>
      rw [indLoop, ih, indSum]
      simp [indSum]
      omega

theorem indOffsetFull_eq (nt : TInfo) : indOffsetFull nt = 1 + flattenedCount nt := by
  obtain ⟨par, cs, ss, al, os⟩ := nt
  rw [indOffsetFull, indLoop_eq]
  rfl

theorem ObjectGetIndOffset_full (nt : TInfo) :
    ObjectGetIndOffset nt nt.nbCols = indOffsetFull nt := by
  obtain ⟨par, cs, ss, al, os⟩ := nt
  rw [ObjectGetIndOffset, indOffsetFull, TInfo.nbCols]
  simp only [TInfo.cols_mk]
  rw [List.take_length]

theorem ObjectGetIndOffset_zero (t : TInfo) : ObjectGetIndOffset t 0 = 1 := by
  rw [ObjectGetIndOffset, List.take_zero, indLoop]

theorem indSum_append (l : List OCol) (c : OCol) :
    indSum (l ++ [c]) = indSum l + indContrib c := by
  simp [indSum]

theorem ObjectGetIndOffset_step (t : TInfo) (i : Nat) (c : OCol)
    (h : t.cols.get? i = some c) :
    ObjectGetIndOffset t (i + 1) = ObjectGetIndOffset t i + indContrib c := by
  rw [ObjectGetIndOffset, ObjectGetIndOffset, List.take_succ, indLoop_eq, indLoop_eq]
  rw [List.get?_eq_getElem?] at h
  rw [h]
  rw [Option.toList_some, indSum_append]
  omega

theorem indContrib_plain (c : OCol) (h : c.datatype ≠ OCI_CDT_OBJECT) : indContrib c = 1 := by
  obtain ⟨nm, dt, st, nested⟩ := c
  rw [OCol.datatype] at h
  rw [indContrib.eq_def]
  dsimp only
  rw [if_neg h]

theorem indContrib_obj (c : OCol) (nt : TInfo) (hdt : c.datatype = OCI_CDT_OBJECT)
    (hnt : c.nested = some nt) : indContrib c = indOffsetFull nt := by
  obtain ⟨nm, dt, st, nested⟩ := c
  rw [OCol.datatype] at hdt
  rw [OCol.nested] at hnt
  subst hdt
  subst hnt
  rw [indContrib.eq_def]
  dsimp only
  rw [if_pos rfl]

/-! Trace of `ObjectGetUserStructSize` -/

theorem userStruct_foldl_trace (cols : List OCol) :
    ∀ (l : List Nat) (s0 a0 : Nat) (tr : List Nat),
    ((l.foldl (fun st i =>
      let r1 := ColumnGetAttrInfo cols i
      let r2 := ColumnGetAttrInfo cols (i + 1)
      let align := max (max st.2.1 r1.2) r2.2
      let size := ROUNDUP (st.1 + r1.1) r2.2
      (size, align, st.2.2 ++ [i, i + 1])) (s0, a0, tr)).2.2) =
    tr ++ l.flatMap (fun i => [i, i + 1]) := by
  intro l
  induction l with
  | nil => intro s0 a0 tr; simp
  | cons i l ih =>
      intro s0 a0 tr
      rw [List.foldl_cons]
      rw [ih]
      simp

theorem userStruct_trace (t : TInfo) :
    (ObjectGetUserStructSize t).2.2 =
      (List.range t.nbCols).flatMap (fun i => [i, i + 1]) := by
  rw [ObjectGetUserStructSize, userStruct_foldl_trace]
  rfl

/-! Claims -/

/-- C2: layout computation is idempotent and memoized: when `struct_size` is
already nonzero `ObjectGetStructSize` returns the cached `(struct_size,
align)` leaving the descriptor untouched, and a second run of the layout
computation yields the identical descriptor — same size, align and
offsets — and the identical outputs. -/
theorem claim_C2 (t : TInfo) :
    (t.struct_size ≠ 0 → ObjectGetStructSize t = (t, t.struct_size, t.align)) ∧
    ObjectGetStructSize ((ObjectGetStructSize t).1) = ObjectGetStructSize t := by
  constructor
  · intro h
    obtain ⟨par, cs, ss, al, os⟩ := t
    exact gss_cached par cs ss al os h
  · exact gss_idem t

/-- C2 witness: a type with cached layout is returned as-is, and the second
run of the computation equals the first. -/
theorem claim_C2_witness :
    ObjectGetStructSize parentDone = (parentDone, 22, 1) ∧
    ObjectGetStructSize ((ObjectGetStructSize parentDone).1) =
      ObjectGetStructSize parentDone :=
  ⟨(claim_C2 parentDone).1 (by decide), (claim_C2 parentDone).2⟩

/-- C4 counterexample: the indicator-offset walk starts its accumulator at
`1` (the composite's own null slot), so over the empty column range the
computed offset is `1`, not `0` as the claim states. -/
theorem claim_C4_cex : ¬ (ObjectGetIndOffset oneColTy 0 = 0) := by decide

/-- C4 (amended): `ObjectGetIndOffset(type, index)` counts forward from `1`
(slot 0 being the composite's own indicator slot) across columns
`[0, index)`: each plain column adds `1` and each nested-object column adds
`ObjectGetIndOffset(nested, nested.nb_cols)` — which already equals `1`
plus the flattened count of the nested type's descendants; in particular
the offset over the empty column range is `1`, not `0`. -/
theorem claim_C4_amended (t : TInfo) :
    ObjectGetIndOffset t 0 = 1 ∧
    (∀ i c, t.cols.get? i = some c →
      ObjectGetIndOffset t (i + 1) = ObjectGetIndOffset t i + indContrib c ∧
      (∀ nt, c.datatype = OCI_CDT_OBJECT → c.nested = some nt →
        indContrib c = ObjectGetIndOffset nt nt.nbCols) ∧
      (c.datatype ≠ OCI_CDT_OBJECT → indContrib c = 1)) := by
  refine ⟨ObjectGetIndOffset_zero t, ?_⟩
  intro i c h
  refine ⟨ObjectGetIndOffset_step t i c h, ?_, indContrib_plain c⟩
  intro nt hdt hnt
  rw [indContrib_obj c nt hdt hnt, ObjectGetIndOffset_full]

/-- C4 witness: the amended recurrence evaluated on `OUTER(A object(INNER),
B number)` at column 0. -/
theorem claim_C4_witness :
    ObjectGetIndOffset outerTy 0 = 1 ∧
    ObjectGetIndOffset outerTy 1 = ObjectGetIndOffset outerTy 0 +
      indContrib (OCol.mk "A" OCI_CDT_OBJECT 0 (some innerTy)) :=
  ⟨(claim_C4_amended outerTy).1,
   (((claim_C4_amended outerTy).2 0 (OCol.mk "A" OCI_CDT_OBJECT 0 (some innerTy)) rfl)).1⟩

/-- C8: for a final declared type, or when no instance handle is given,
`ObjectGetRealTypeInfo` returns the declared type reference unchanged with
no native runtime call; the native lookup block runs only for a non-final
object-category type with a handle present. -/
theorem claim_C8 (rt : OciRuntime) (ti : TypeInfoRef) (object : Option Nat) :
    ((ti.is_final = true ∨ object = none) →
      ObjectGetRealTypeInfo rt (some ti) object = (some ti, false)) ∧
    ((ObjectGetRealTypeInfo rt (some ti) object).2 = true →
      ti.ttype = OCI_TIF_TYPE ∧ ti.is_final = false ∧ object ≠ none) := by
  constructor
  · intro hfast
    cases object with
    | none => rfl
    | some h =>
        rcases hfast with hf | hn
        · rw [ObjectGetRealTypeInfo]
          rw [if_neg]
          intro hcon
          rw [hf] at hcon
          cases hcon.2
        · cases hn
  · intro htrue
    cases object with
    | none =>
        rw [ObjectGetRealTypeInfo] at htrue
        cases htrue
    | some h =>
        rw [ObjectGetRealTypeInfo] at htrue
        by_cases hc : ti.ttype = OCI_TIF_TYPE ∧ ti.is_final = false
        · exact ⟨hc.1, hc.2, by simp⟩
        · rw [if_neg hc] at htrue
          cases htrue

/-- C8 witness: a final type with a handle present resolves to itself with
no native call, and the flag is never raised for it. -/
theorem claim_C8_witness :
    ObjectGetRealTypeInfo rtTrivial (some tiFinal) (some 5) = (some tiFinal, false) ∧
    ((ObjectGetRealTypeInfo rtTrivial (some tiFinal) none).2 = true →
      tiFinal.ttype = OCI_TIF_TYPE ∧ tiFinal.is_final = false ∧ (none : Option Nat) ≠ none) :=
  ⟨(claim_C8 rtTrivial tiFinal (some 5)).1 (Or.inl rfl),
   (claim_C8 rtTrivial tiFinal none).2⟩

/-- C5: every nullable-value setter called with an absent value routes to
`ObjectSetNull` — whatever the native assignment primitive is, it is never
invoked and the data cells are never written — marking the attribute's
indicator slot `OCI_IND_NULL` and returning success when the attribute
exists. -/
theorem claim_C5 {V : Type} (dtype : Int) (func : V → Int → Bool × Int)
    (strWrite : String → Int → Bool × Int) (o : OObject) (attr : String) :
    OCI_OBJECT_SET_VALUE dtype func o attr none = ObjectSetNull o attr ∧
    ObjectSetString strWrite o attr none = ObjectSetNull o attr ∧
    (ObjectSetNull o attr).1.dataCells = o.dataCells ∧
    (∀ index, ObjectGetAttrIndex o.typinf attr (-1) = some index →
      (ObjectSetNull o attr).2.1 = true ∧
      (ObjectSetNull o attr).1.tab_ind =
        o.tab_ind.set (o.idx_ind + ObjectGetIndOffset o.typinf index) OCI_IND_NULL) := by
  refine ⟨rfl, rfl, ?_, ?_⟩
  · rw [ObjectSetNull]
    cases h : ObjectGetAttrIndex o.typinf attr (-1) with
    | none => rfl
    | some index => rfl
  · intro index h
    rw [ObjectSetNull, h]
    exact ⟨rfl, rfl⟩

/-- C5 witness: setting the (existing) attribute of a concrete object to the
absent value succeeds and stores `OCI_IND_NULL` in its indicator slot. -/
theorem claim_C5_witness :
    OCI_OBJECT_SET_VALUE (-1 : Int) (fun (v : Nat) cell => (true, cell)) boolObjOdd "FLAG" none =
      ObjectSetNull boolObjOdd "FLAG" ∧
    (ObjectSetNull boolObjOdd "FLAG").2.1 = true ∧
    (ObjectSetNull boolObjOdd "FLAG").1.tab_ind =
      boolObjOdd.tab_ind.set (boolObjOdd.idx_ind + ObjectGetIndOffset boolObjOdd.typinf 0)
        OCI_IND_NULL :=
  ⟨(claim_C5 (-1 : Int) (fun (v : Nat) cell => (true, cell))
      (fun _ cell => (true, cell)) boolObjOdd "FLAG").1,
   ((claim_C5 (-1 : Int) (fun (v : Nat) cell => (true, cell))
      (fun _ cell => (true, cell)) boolObjOdd "FLAG").2.2.2 0 (by decide))⟩

/-- C6: a setter whose native assignment primitive fails leaves the null
indicator array exactly as it was — for the `OCI_OBJECT_SET_VALUE` macro
with any failing primitive and for `ObjectSetNumberInternal` with a
failing `TranslateNumericValue` — so `ObjectIsNull` is unchanged by the
failed set. -/
theorem claim_C6 {V : Type} (dtype : Int) (func : V → Int → Bool × Int)
    (translate : Int → Nat → Bool × Int) (o : OObject) (attr : String) (v : V) :
    (∀ index, ObjectGetAttrIndex o.typinf attr dtype = some index →
      (func v (o.dataCells.getD index 0)).1 = false →
      (OCI_OBJECT_SET_VALUE dtype func o attr (some v)).1.tab_ind = o.tab_ind ∧
      (o.typinf.struct_size ≠ 0 →
        ObjectIsNull (OCI_OBJECT_SET_VALUE dtype func o attr (some v)).1 attr =
          ObjectIsNull o attr)) ∧
    (o.typinf.struct_size ≠ 0 →
      ∀ index, ObjectGetAttrIndex o.typinf attr ((OCI_CDT_NUMERIC : Nat) : Int) = some index →
      (translate (o.dataCells.getD index 0) (o.typinf.cols.getD index defaultOCol).subtype).1 =
        false →
      (ObjectSetNumberInternal translate o attr).1.tab_ind = o.tab_ind ∧
      ObjectIsNull (ObjectSetNumberInternal translate o attr).1 attr = ObjectIsNull o attr) := by
  constructor
  · intro index hfound hfail
    rw [OCI_OBJECT_SET_VALUE, hfound]
    simp only [ObjectGetAttr]
    rw [if_neg (by rw [hfail]; exact Bool.false_ne_true)]
    constructor
    · rfl
    · intro hss
      rw [if_neg hss]
      rw [ObjectIsNull, ObjectIsNull]
  · intro hss index hfound hfail
    rw [ObjectSetNumberInternal, hfound]
    simp only [ObjectGetAttr]
    rw [if_neg hss]
    rw [if_neg (by rw [hfail]; exact Bool.false_ne_true)]
    exact ⟨rfl, by rw [ObjectIsNull, ObjectIsNull]⟩

/-- C6 witness: a failing write on a concrete object leaves its indicator
array untouched and `ObjectIsNull` unchanged. -/
theorem claim_C6_witness :
    ((OCI_OBJECT_SET_VALUE ((OCI_CDT_BOOLEAN : Nat) : Int)
        (fun (v : Nat) cell => (false, cell)) boolObjOdd "FLAG" (some 1)).1.tab_ind =
      boolObjOdd.tab_ind ∧
     (boolObjOdd.typinf.struct_size ≠ 0 →
       ObjectIsNull (OCI_OBJECT_SET_VALUE ((OCI_CDT_BOOLEAN : Nat) : Int)
          (fun (v : Nat) cell => (false, cell)) boolObjOdd "FLAG" (some 1)).1 "FLAG" =
         ObjectIsNull boolObjOdd "FLAG") ∧
     (ObjectSetNumberInternal (fun cell st => (false, cell)) numObj "V").1.tab_ind =
       numObj.tab_ind ∧
     ObjectIsNull (ObjectSetNumberInternal (fun cell st => (false, cell)) numObj "V").1 "V" =
       ObjectIsNull numObj "V") := by
  refine ⟨?_, ?_, ?_⟩
  · exact ((claim_C6 ((OCI_CDT_BOOLEAN : Nat) : Int) (fun (v : Nat) cell => (false, cell))
      (fun cell st => (false, cell)) boolObjOdd "FLAG" 1).1 0 (by decide) rfl).1
  · exact fun h => ((claim_C6 ((OCI_CDT_BOOLEAN : Nat) : Int) (fun (v : Nat) cell => (false, cell))
      (fun cell st => (false, cell)) boolObjOdd "FLAG" 1).1 0 (by decide) rfl).2 h
  · exact And.intro
      (((claim_C6 (-1 : Int) (fun (v : Nat) cell => (false, cell))
        (fun cell st => (false, cell)) numObj "V" 0).2 (by decide) 0 (by decide) rfl).1)
      (((claim_C6 (-1 : Int) (fun (v : Nat) cell => (false, cell))
        (fun cell st => (false, cell)) numObj "V" 0).2 (by decide) 0 (by decide) rfl).2)

/-- C7: reading an attribute whose indicator marks NULL is not an error:
the wrapper-getter macro returns the NULL wrapper with `OCI_STATUS` true
and no error raised, `ObjectGetBoolean` returns `FALSE` with status true
and no error, and `ObjectGetShort` returns `0` with no error raised
(its inner `ObjectGetNumberInternal` raises no exception). -/
theorem claim_C7 (o : OObject) (attr : String) (hss : o.typinf.struct_size ≠ 0) :
    (∀ (dtype : Int) (func : Int → Int → Int) index,
      ObjectGetAttrIndex o.typinf attr dtype = some index →
      o.tab_ind.getD (o.idx_ind + ObjectGetIndOffset o.typinf index) 0 = OCI_IND_NULL →
      OCI_OBJECT_GET_VALUE dtype func o attr = (o, 0, true, false)) ∧
    (∀ index, ObjectGetAttrIndex o.typinf attr ((OCI_CDT_BOOLEAN : Nat) : Int) = some index →
      o.tab_ind.getD (o.idx_ind + ObjectGetIndOffset o.typinf index) 0 = OCI_IND_NULL →
      ObjectGetBoolean o attr = (o, 0, true, false)) ∧
    (∀ (translateOut : Int → Nat → Option Int) (textPath : Option Int) index,
      ObjectGetAttrIndex o.typinf attr ((OCI_CDT_NUMERIC : Nat) : Int) = some index →
      o.tab_ind.getD (o.idx_ind + ObjectGetIndOffset o.typinf index) 0 = OCI_IND_NULL →
      ObjectGetShort translateOut textPath o attr = (o, 0) ∧
      (ObjectGetNumberInternal translateOut textPath o attr).2.2.2 = false) := by
  refine ⟨?_, ?_, ?_⟩
  · intro dtype func index hfound hnull
    rw [OCI_OBJECT_GET_VALUE, hfound]
    simp only [ObjectGetAttr]
    rw [if_neg hss]
    rw [hnull, if_neg (by intro hne; exact hne rfl)]
  · intro index hfound hnull
    rw [ObjectGetBoolean, hfound]
    simp only [ObjectGetAttr]
    rw [if_neg hss]
    rw [hnull, if_neg (by intro hne; exact hne rfl)]
  · intro translateOut textPath index hfound hnull
    rw [ObjectGetShort, ObjectGetNumberInternal, hfound]
    simp only [ObjectGetAttr]
    rw [if_neg hss]
    rw [hnull, if_neg (by intro hne; exact hne rfl)]
    exact ⟨rfl, rfl⟩

/-- C7 witness: on a concrete object whose attribute indicator is NULL, the
wrapper getter returns NULL with success, the boolean getter returns
`FALSE`, and the short getter returns `0`, with no error raised. -/
theorem claim_C7_witness :
    OCI_OBJECT_GET_VALUE ((OCI_CDT_BOOLEAN : Nat) : Int) (fun w cell => w + cell + 1)
      boolObjNull "FLAG" = (boolObjNull, 0, true, false) ∧
    ObjectGetBoolean boolObjNull "FLAG" = (boolObjNull, 0, true, false) ∧
    ObjectGetShort (fun cell st => some cell) none numObjNull "V" = (numObjNull, 0) := by
  refine ⟨?_, ?_, ?_⟩
  · exact (claim_C7 boolObjNull "FLAG" (by decide)).1 ((OCI_CDT_BOOLEAN : Nat) : Int)
      (fun w cell => w + cell + 1) 0 (by decide) (by decide)
  · exact (claim_C7 boolObjNull "FLAG" (by decide)).2.1 0 (by decide) (by decide)
  · exact ((claim_C7 numObjNull "V" (by decide)).2.2 (fun cell st => some cell) none 0
      (by decide) (by decide)).1

/-- C10: `ObjectIsNull` and the value getters test the indicator
asymmetrically — `ObjectIsNull` reports null whenever the indicator
differs from `OCI_IND_NOTNULL`, while a getter treats only `OCI_IND_NULL`
as null — so for an indicator value that is neither, `ObjectIsNull`
returns true yet `ObjectGetBoolean` still reads and returns the stored
cell value. -/
theorem claim_C10 (o : OObject) (attr : String) (index : Nat) (v : Int)
    (hss : o.typinf.struct_size ≠ 0)
    (h1 : ObjectGetAttrIndex o.typinf attr (-1) = some index)
    (h2 : ObjectGetAttrIndex o.typinf attr ((OCI_CDT_BOOLEAN : Nat) : Int) = some index)
    (hv : o.tab_ind.getD (o.idx_ind + ObjectGetIndOffset o.typinf index) 0 = v)
    (hvnull : v ≠ OCI_IND_NULL) (hvnotnull : v ≠ OCI_IND_NOTNULL) :
    (ObjectIsNull o attr).1 = true ∧
    ObjectGetBoolean o attr = (o, o.dataCells.getD index 0, true, false) := by
  constructor
  · rw [ObjectIsNull, h1]
    dsimp only
    rw [hv]
    simp [hvnotnull]
  · rw [ObjectGetBoolean, h2]
    simp only [ObjectGetAttr]
    rw [if_neg hss]
    rw [hv, if_pos (fun he => hvnull he.symm)]

/-- C10 witness: with indicator value `5`, `ObjectIsNull` reports null while
`ObjectGetBoolean` returns the stored cell value `1`. -/
theorem claim_C10_witness :
    (ObjectIsNull boolObjOdd "FLAG").1 = true ∧
    ObjectGetBoolean boolObjOdd "FLAG" = (boolObjOdd, boolObjOdd.dataCells.getD 0 0, true, false) :=
  claim_C10 boolObjOdd "FLAG" 0 5 (by decide) (by decide) (by decide) (by decide)
    (by decide) (by decide)

theorem structSizeLoop_offs_getD (rest : List OCol) (sz s1 s2c aV tg : Nat) (offs : List Nat)
    (upd : List OCol) (i : Nat) (d : Nat) (h : i < offs.length) :
    ((structSizeLoop rest sz s1 s2c aV tg offs upd).2.2.2.2.1).getD i d = offs.getD i d := by
  rw [structSizeLoop_frame]
  dsimp only
  exact List.getD_append _ _ _ _ h

/-- C3: for a type whose column 0 is a nested-object column over a type with
two plain columns, the null-indicator offset of column 1 is `4` (the
composite's own root slot, the nested object's own slot, and its two
scalar slots); in general a nested-object column advances the running
offset by `1` plus the flattened recursive slot count of its nested type,
and a plain column advances it by `1`. -/
theorem claim_C3 :
    (∀ (t nt : TInfo) (c0 c1 d1 d2 : OCol),
      t.cols.get? 0 = some c0 → c0.datatype = OCI_CDT_OBJECT → c0.nested = some nt →
      nt.cols = [d1, d2] → d1.datatype ≠ OCI_CDT_OBJECT → d2.datatype ≠ OCI_CDT_OBJECT →
      t.cols.get? 1 = some c1 → c1.datatype ≠ OCI_CDT_OBJECT →
      ObjectGetIndOffset t 1 = 4) ∧
    (∀ (t : TInfo) (i : Nat) (c : OCol) (nt : TInfo),
      t.cols.get? i = some c → c.datatype = OCI_CDT_OBJECT → c.nested = some nt →
      ObjectGetIndOffset t (i + 1) = ObjectGetIndOffset t i + (1 + flattenedCount nt)) ∧
    (∀ (t : TInfo) (i : Nat) (c : OCol),
      t.cols.get? i = some c → c.datatype ≠ OCI_CDT_OBJECT →
      ObjectGetIndOffset t (i + 1) = ObjectGetIndOffset t i + 1) := by
  have hobj : ∀ (t : TInfo) (i : Nat) (c : OCol) (nt : TInfo),
      t.cols.get? i = some c → c.datatype = OCI_CDT_OBJECT → c.nested = some nt →
      ObjectGetIndOffset t (i + 1) = ObjectGetIndOffset t i + (1 + flattenedCount nt) := by
    intro t i c nt h hdt hnt
    rw [ObjectGetIndOffset_step t i c h, indContrib_obj c nt hdt hnt, indOffsetFull_eq]
  have hplain : ∀ (t : TInfo) (i : Nat) (c : OCol),
      t.cols.get? i = some c → c.datatype ≠ OCI_CDT_OBJECT →
      ObjectGetIndOffset t (i + 1) = ObjectGetIndOffset t i + 1 := by
    intro t i c h hdt
    rw [ObjectGetIndOffset_step t i c h, indContrib_plain c hdt]
  refine ⟨?_, hobj, hplain⟩
  intro t nt c0 c1 d1 d2 h0 hdt hnt hcols hd1 hd2 h1 hc1
  have hstep := hobj t 0 c0 nt h0 hdt hnt
  rw [ObjectGetIndOffset_zero] at hstep
  rw [hstep]
  have hflat : flattenedCount nt = 2 := by
    rw [flattenedCount, hcols]
    rw [indSum]
    rw [List.map_cons, List.map_cons, List.map_nil]
    rw [indContrib_plain d1 hd1, indContrib_plain d2 hd2]
    rfl
  rw [hflat]

/-- C3 witness: the scenario `OUTER(A object(INNER), B number)` with `INNER`
having two plain columns evaluates to indicator offset `4` for column 1. -/
theorem claim_C3_witness : ObjectGetIndOffset outerTy 1 = 4 :=
  claim_C3.1 outerTy innerTy (OCol.mk "A" OCI_CDT_OBJECT 0 (some innerTy)) (numCol "B")
    (numCol "X") (numCol "Y") rfl rfl rfl rfl (by decide) (by decide) rfl (by decide)

/-- C9: the `ObjectGetUserStructSize` loop hands `ColumnGetAttrInfo` the
column descriptors at `i` and `i + 1` for every `i < nb_cols`, so its last
iteration passes the descriptor slot at index `nb_cols` — one past the
last valid column index of the type's column array. -/
theorem claim_C9 (t : TInfo) (h : 1 ≤ t.nbCols) :
    (∀ i, i < t.nbCols → (i + 1) ∈ (ObjectGetUserStructSize t).2.2) ∧
    t.nbCols ∈ (ObjectGetUserStructSize t).2.2 ∧
    ¬ (t.nbCols < t.cols.length) := by
  rw [userStruct_trace]
  refine ⟨?_, ?_, ?_⟩
  · intro i hi
    rw [List.mem_flatMap]
    exact ⟨i, List.mem_range.mpr hi, by simp⟩
  · rw [List.mem_flatMap]
    refine ⟨t.nbCols - 1, List.mem_range.mpr (by omega), ?_⟩
    have h2 : t.nbCols - 1 + 1 = t.nbCols := by omega
    rw [h2]
    exact List.mem_cons_of_mem _ (List.mem_cons_self _ _)
  · rw [TInfo.nbCols]
    omega

/-- C9 witness: on a one-column type, the loop's trace contains index `1`,
one past the only valid column index `0`. -/
theorem claim_C9_witness :
    (∀ i, i < oneColTy.nbCols → (i + 1) ∈ (ObjectGetUserStructSize oneColTy).2.2) ∧
    oneColTy.nbCols ∈ (ObjectGetUserStructSize oneColTy).2.2 ∧
    ¬ (oneColTy.nbCols < oneColTy.cols.length) :=
  claim_C9 oneColTy (by decide)

/-- C1: computing the layout of a derived type whose parent layout is
already cached copies the parent's offsets verbatim into the first
`nb_cols(parent)` entries of the derived offset table, and the derived
struct size is at least the parent's struct size. -/
theorem claim_C1 (t p : TInfo) (hpar : t.parent = some p) (hp : p.struct_size ≠ 0)
    (ht : t.struct_size = 0) :
    (∀ i, i < p.nbCols →
      (ObjectGetStructSize t).1.offsets.getD i 0 = p.offsets.getD i 0) ∧
    p.struct_size ≤ (ObjectGetStructSize t).1.struct_size := by
  obtain ⟨par, cs, ss, al, os⟩ := t
  rw [TInfo.parent_mk] at hpar
  subst hpar
  rw [TInfo.struct_size_mk] at ht
  subst ht
  have hpc : ObjectGetStructSize p = (p, p.struct_size, p.align) := by
    obtain ⟨pp, pcs, pss, pal, pos⟩ := p
    exact gss_cached pp pcs pss pal pos hp
  have hpfx : ∀ i, i < p.nbCols →
      ((List.range p.nbCols).map (fun j => p.offsets.getD j 0)).getD i 0 =
        p.offsets.getD i 0 := by
    intro i hi
    rw [List.getD_eq_getElem?_getD, List.getElem?_map, List.getElem?_range hi]
    rfl
  cases hsp : cs.drop ((ObjectGetStructSize p).1.nbCols) with
  | nil =>
      rw [gss_sub_nil p cs al os hsp]
      rw [hpc]
      dsimp only
      exact ⟨hpfx, le_ROUNDUP p.struct_size al⟩
  | cons ci rest2 =>
      rw [gss_sub_cons p cs al os ci rest2 hsp]
      rw [hpc]
      dsimp only
      by_cases hi0 : p.nbCols = 0
      · rw [if_pos hi0]
        simp only [TInfo.struct_size_mk, TInfo.offsets_mk]
        constructor
        · intro i hi
          omega
        · have h1 := le_ROUNDUP p.struct_size (ObjectGetAttrInfo ci 0 0).2.2
          have h2 := structSizeLoop_size_le rest2
            (ROUNDUP p.struct_size (ObjectGetAttrInfo ci 0 0).2.2)
            (ObjectGetAttrInfo ci 0 0).2.1 (ObjectGetAttrInfo ci 0 0).2.1
            (ObjectGetAttrInfo ci 0 0).2.2 (max p.align (ObjectGetAttrInfo ci 0 0).2.2)
            [0] [(ObjectGetAttrInfo ci 0 0).1]
          have h3 := le_ROUNDUP
            ((structSizeLoop rest2 (ROUNDUP p.struct_size (ObjectGetAttrInfo ci 0 0).2.2)
              (ObjectGetAttrInfo ci 0 0).2.1 (ObjectGetAttrInfo ci 0 0).2.1
              (ObjectGetAttrInfo ci 0 0).2.2 (max p.align (ObjectGetAttrInfo ci 0 0).2.2)
              [0] [(ObjectGetAttrInfo ci 0 0).1]).1 +
             (structSizeLoop rest2 (ROUNDUP p.struct_size (ObjectGetAttrInfo ci 0 0).2.2)
              (ObjectGetAttrInfo ci 0 0).2.1 (ObjectGetAttrInfo ci 0 0).2.1
              (ObjectGetAttrInfo ci 0 0).2.2 (max p.align (ObjectGetAttrInfo ci 0 0).2.2)
              [0] [(ObjectGetAttrInfo ci 0 0).1]).2.1)
            ((structSizeLoop rest2 (ROUNDUP p.struct_size (ObjectGetAttrInfo ci 0 0).2.2)
              (ObjectGetAttrInfo ci 0 0).2.1 (ObjectGetAttrInfo ci 0 0).2.1
              (ObjectGetAttrInfo ci 0 0).2.2 (max p.align (ObjectGetAttrInfo ci 0 0).2.2)
              [0] [(ObjectGetAttrInfo ci 0 0).1]).2.2.2.1)
          omega
      · rw [if_neg hi0]
        simp only [TInfo.struct_size_mk, TInfo.offsets_mk]
        constructor
        · intro i hi
          rw [structSizeLoop_offs_getD]
          · rw [List.getD_append]
            · exact hpfx i hi
            · rw [List.length_map, List.length_range]
              exact hi
          · rw [List.length_append, List.length_map, List.length_range]
            omega
        · have h1 := le_ROUNDUP p.struct_size (ObjectGetAttrInfo ci 0 0).2.2
          have h2 := structSizeLoop_size_le rest2
            (ROUNDUP p.struct_size (ObjectGetAttrInfo ci 0 0).2.2)
            (ObjectGetAttrInfo ci 0 0).2.1 (ObjectGetAttrInfo ci 0 0).2.1
            p.align (max p.align (ObjectGetAttrInfo ci 0 0).2.2)
            (((List.range p.nbCols).map (fun j => p.offsets.getD j 0)) ++
              [ROUNDUP p.struct_size (ObjectGetAttrInfo ci 0 0).2.2])
            (cs.take p.nbCols ++ [(ObjectGetAttrInfo ci 0 0).1])
          have h3 := le_ROUNDUP
            ((structSizeLoop rest2 (ROUNDUP p.struct_size (ObjectGetAttrInfo ci 0 0).2.2)
              (ObjectGetAttrInfo ci 0 0).2.1 (ObjectGetAttrInfo ci 0 0).2.1
              p.align (max p.align (ObjectGetAttrInfo ci 0 0).2.2)
              (((List.range p.nbCols).map (fun j => p.offsets.getD j 0)) ++
                [ROUNDUP p.struct_size (ObjectGetAttrInfo ci 0 0).2.2])
              (cs.take p.nbCols ++ [(ObjectGetAttrInfo ci 0 0).1])).1 +
             (structSizeLoop rest2 (ROUNDUP p.struct_size (ObjectGetAttrInfo ci 0 0).2.2)
              (ObjectGetAttrInfo ci 0 0).2.1 (ObjectGetAttrInfo ci 0 0).2.1
              p.align (max p.align (ObjectGetAttrInfo ci 0 0).2.2)
              (((List.range p.nbCols).map (fun j => p.offsets.getD j 0)) ++
                [ROUNDUP p.struct_size (ObjectGetAttrInfo ci 0 0).2.2])
              (cs.take p.nbCols ++ [(ObjectGetAttrInfo ci 0 0).1])).2.1)
            ((structSizeLoop rest2 (ROUNDUP p.struct_size (ObjectGetAttrInfo ci 0 0).2.2)
              (ObjectGetAttrInfo ci 0 0).2.1 (ObjectGetAttrInfo ci 0 0).2.1
              p.align (max p.align (ObjectGetAttrInfo ci 0 0).2.2)
              (((List.range p.nbCols).map (fun j => p.offsets.getD j 0)) ++
                [ROUNDUP p.struct_size (ObjectGetAttrInfo ci 0 0).2.2])
              (cs.take p.nbCols ++ [(ObjectGetAttrInfo ci 0 0).1])).2.2.2.1)
          omega

/-- C1 witness: computing the derived type's layout over an already-computed
parent preserves the parent's offset entries and yields at least the
parent's struct size. -/
theorem claim_C1_witness :
    (∀ i, i < parentDone.nbCols →
      (ObjectGetStructSize derivedTy).1.offsets.getD i 0 = parentDone.offsets.getD i 0) ∧
    parentDone.struct_size ≤ (ObjectGetStructSize derivedTy).1.struct_size :=
  claim_C1 derivedTy parentDone rfl (by decide) rfl

end OcilibObject
